import Mathlib

/-!
# Verification of the stock-breakout-analyzer technical engine

Shallow embedding, over `ℚ`, of the technical-indicator and signal-fusion
engine (`TechnicalAnalysis`, `BollingerBands`, `PatternRecognitionService`).
The series convention is newest-first (index 0 = most recent bar), exactly as
in the source.  JavaScript numbers are modelled as exact rationals; the two
places where IEEE semantics are observable to the properties proved here are
modelled explicitly:

* `Math.sqrt` is an abstract parameter `rsqrt : ℚ → ℚ` threaded through the
  Bollinger-band definitions; theorems assume only the properties of the real
  square root that they need (non-negativity on non-negative inputs,
  `rsqrt 0 = 0`).
* Inside `calculateMACD` the slow-EMA series is shorter than the fast-EMA
  series, so the JavaScript code reads past the end of the array and the tail
  of the MACD line is `NaN`, which then poisons the whole signal line.  This
  is modelled faithfully with `Option ℚ` (`none` = `NaN`/`undefined`): `none`
  is absorbing for arithmetic, every comparison with `none` is false, and
  `x || 0` maps `none` to `0`.

Where a field of a JavaScript object is read but never written (for example
`patterns.summary.patternsFound` in `analyzeBreakout` when it is fed by
`PatternRecognitionService.generatePatternSummary`, whose summary only has
`detected`/`primaryPattern`/`confidence`), the read yields `undefined`, which
is falsy; the composition models this with the corresponding default value.
-/

/-- One OHLCV price bar.  The source `PriceBar` also carries a `date`; dates
are never used by any numeric computation verified here and are omitted.
The JavaScript field `open` is a Lean keyword, hence `opn`. -/
structure Bar where
  opn : ℚ
  high : ℚ
  low : ℚ
  close : ℚ
  volume : ℚ
deriving Repr, DecidableEq, Inhabited

/-- Last `n` elements of a list (JavaScript `arr.slice(-n)`). -/
def takeLast {α : Type} (l : List α) (n : ℕ) : List α :=
  l.drop (l.length - n)

/-- Source `Math.max(...l)` for the non-empty lists the engine applies it to. -/
def listMax (l : List ℚ) : ℚ :=
  l.foldl max (l.headD 0)

/-- Source `Math.min(...l)` for the non-empty lists the engine applies it to. -/
def listMin (l : List ℚ) : ℚ :=
  l.foldl min (l.headD 0)

/-- JavaScript `Math.round` (round half toward +∞). -/
def jsRound (q : ℚ) : ℤ :=
  Int.floor (q + 1/2)

/-- The sum `Σ i·prices[i]`, the JavaScript reduce
`x.reduce((a, b, i) => a + b * prices[i], 0)` with `x = [0..n-1]`. -/
def idxWeightedSum : ℕ → List ℚ → ℚ
  | _, [] => 0
  | i, p :: ps => (i : ℚ) * p + idxWeightedSum (i + 1) ps

/-- The sum `Σ i` over `i ∈ [0..n-1]`, as a rational. -/
def idxSum (n : ℕ) : ℚ :=
  ((List.range n).map (fun i => (i : ℚ))).sum

/-- The sum `Σ i²` over `i ∈ [0..n-1]`, as a rational. -/
def idxSqSum (n : ℕ) : ℚ :=
  ((List.range n).map (fun i => (i : ℚ) * i)).sum

namespace TechnicalAnalysis

/-- Source `this.rsiPeriod` -/
def rsiPeriod : ℕ := 14
/-- Source `this.macdFast` -/
def macdFast : ℕ := 12
/-- Source `this.macdSlow` -/
def macdSlow : ℕ := 26
/-- Source `this.macdSignal` -/
def macdSignalPeriod : ℕ := 9
/-- Source `this.bbPeriod` -/
def bbPeriod : ℕ := 20
/-- Source `this.bbStdDev` -/
def bbStdDev : ℚ := 2
/-- Source `this.atrPeriod` -/
def atrPeriod : ℕ := 14
/-- Source `this.mfiPeriod` -/
def mfiPeriod : ℕ := 14
/-- Source `this.fibLevels` -/
def fibLevels : List ℚ := [0.236, 0.382, 0.5, 0.618, 0.786]

/-- Source `calculateSMA(data, period)`: mean of the first (newest) `period` values,
dividing by `period` as the source does. -/
def calculateSMA (prices : List ℚ) (period : ℕ) : ℚ :=
  (prices.take period).sum / (period : ℚ)

/-- One step of the EMA recurrence
`ema = (price - ema) * multiplier + ema`. -/
def emaStep (m : ℚ) (ema price : ℚ) : ℚ :=
  (price - ema) * m + ema

/-- Source `calculateEMA(data, period)` from `part_010`: seeds with the SMA of the
*newest* `period` closes (`prices[0..period-1]`), then applies the recurrence
once for each `i` from `period-1` **down to 0**, i.e. over that same newest
window walking from older index toward index 0. -/
def calculateEMA (data : List Bar) (period : ℕ) : ℚ :=
  let prices := data.map Bar.close
  let multiplier : ℚ := 2 / ((period : ℚ) + 1)
  ((prices.take period).reverse).foldl (emaStep multiplier) (calculateSMA prices period)

/-- Source `calculateEMAValues(prices, period)` from `part_010`: seeds with the mean
of the newest `period` prices and then applies the recurrence for
`i = period .. length-1`, i.e. walking from newer bars toward **older** bars,
unshifting each value (so the head of the result is the last value computed,
from the oldest price). -/
def calculateEMAValues (prices : List ℚ) (period : ℕ) : List ℚ :=
  let multiplier : ℚ := 2 / ((period : ℚ) + 1)
  let seed := (prices.take period).sum / (period : ℚ)
  let step := fun (acc : ℚ × List ℚ) (price : ℚ) =>
    let e := emaStep multiplier acc.1 price
    (e, e :: acc.2)
  ((prices.drop period).foldl step (seed, [seed])).2

/-- Modelled from the spec: the reference EMA over a newest-first series —
seed with the SMA of the **oldest** `period` values, then apply
`ema_t = (price_t - ema_{t-1})·(2/(period+1)) + ema_{t-1}` once per remaining
bar, walking chronologically from the oldest remaining bar toward the newest
(index 0), and return the value at the newest bar. -/
def specEMA (prices : List ℚ) (period : ℕ) : ℚ :=
  let multiplier : ℚ := 2 / ((period : ℚ) + 1)
  let seed := ((prices.reverse.take period).sum) / (period : ℚ)
  ((prices.take (prices.length - period)).reverse).foldl (emaStep multiplier) seed

end TechnicalAnalysis

namespace TechnicalAnalysis

/-! ### MACD with NaN-faithful option arithmetic -/

/-- EMA step over `Option ℚ`; `none` (JavaScript `NaN`/`undefined`) is
absorbing, matching IEEE arithmetic. -/
def emaStepOpt (m : ℚ) (ema price : Option ℚ) : Option ℚ :=
  match price, ema with
  | some p, some e => some ((p - e) * m + e)
  | _, _ => none

/-- Sum of a list of option-numbers; any `none` poisons the sum. -/
def optSum (l : List (Option ℚ)) : Option ℚ :=
  l.foldl (fun a b =>
    match a, b with
    | some x, some y => some (x + y)
    | _, _ => none) (some 0)

/-- Subtraction over option-numbers. -/
def optSub (a b : Option ℚ) : Option ℚ :=
  match a, b with
  | some x, some y => some (x - y)
  | _, _ => none

/-- Source `calculateEMAValues` over option-numbers (used for the MACD signal line,
whose input already contains `NaN` entries). -/
def calculateEMAValuesOpt (prices : List (Option ℚ)) (period : ℕ) : List (Option ℚ) :=
  let multiplier : ℚ := 2 / ((period : ℚ) + 1)
  let seed := (optSum (prices.take period)).map (fun s => s / (period : ℚ))
  let step := fun (acc : Option ℚ × List (Option ℚ)) (price : Option ℚ) =>
    let e := emaStepOpt multiplier acc.1 price
    (e, e :: acc.2)
  ((prices.drop period).foldl step (seed, [seed])).2

/-- JavaScript `arr[0] || 0`: the head of the list if it is a number
(`NaN` and a missing element both give `0`; a numeric `0` also gives `0`). -/
def jsHeadOr0 (l : List (Option ℚ)) : ℚ :=
  match l.head? with
  | some (some x) => x
  | _ => 0

/-- Element `i` of the list `l`, or `0` — `l[i] || 0`. -/
def jsGetOr0 (l : List (Option ℚ)) (i : ℕ) : ℚ :=
  match l.get? i with
  | some (some x) => x
  | _ => 0

structure MacdResult where
  value : ℚ
  signal : ℚ
  histogram : ℚ
  trend : String
  strength : String
deriving Repr, DecidableEq, Inhabited

/-- The MACD line `fastEMA.map((fast, i) => fast - slowEMA[i])`: reading
past the end of the shorter `slowEMA` array gives `NaN` (`none`) tail
entries. -/
def macdLineOf (prices : List ℚ) : List (Option ℚ) :=
  let fastEMA := calculateEMAValues prices macdFast
  let slowEMA := calculateEMAValues prices macdSlow
  (List.range fastEMA.length).map
    (fun i => (slowEMA.get? i).map (fun s => fastEMA.getD i 0 - s))

/-- The MACD signal line — the 9-period EMA of the (`NaN`-poisoned) MACD
line. -/
def signalLineOf (prices : List ℚ) : List (Option ℚ) :=
  calculateEMAValuesOpt (macdLineOf prices) macdSignalPeriod

/-- The MACD histogram series `macdLine.map((macd, i) => macd -
signalLine[i])`. -/
def histogramOf (prices : List ℚ) : List (Option ℚ) :=
  (List.range (macdLineOf prices).length).map
    (fun i => optSub ((macdLineOf prices).getD i none) ((signalLineOf prices).getD i none))

/-- Source `calculateMACD(data)` from `part_010`.  `macdLine[i] = fastEMA[i] -
slowEMA[i]` reads past the end of `slowEMA` for `i ≥ fast-slow` index range,
giving `NaN` (`none`) entries that poison the signal line. -/
def calculateMACD (data : List Bar) : MacdResult :=
  let prices := data.map Bar.close
  let macdLine := macdLineOf prices
  let signalLine := signalLineOf prices
  let histogram := histogramOf prices
  let currentMACD := jsHeadOr0 macdLine
  let currentSignal := jsHeadOr0 signalLine
  let currentHistogram := jsHeadOr0 histogram
  { value := currentMACD
    signal := currentSignal
    histogram := currentHistogram
    trend := if currentMACD > currentSignal then "BULLISH" else "BEARISH"
    strength :=
      if |currentHistogram| > |jsGetOr0 histogram 1| then "INCREASING" else "DECREASING" }

end TechnicalAnalysis

namespace TechnicalAnalysis

/-! ### RSI -/

/-- The close-to-close differences the RSI loop examines:
`data[i].close - data[i-1].close` for `i = 1 .. rsiPeriod-1`. -/
def rsiDiffs (data : List Bar) : List ℚ :=
  (List.range' 1 (rsiPeriod - 1)).map
    (fun i => (data.map Bar.close).getD i 0 - (data.map Bar.close).getD (i - 1) 0)

/-- Source `calculateRSI(data)` from `part_010`: sums gains and losses over the
initial window, divides both by `rsiPeriod`, returns `100` when the average
loss is `0`, else `100 - 100/(1+rs)`. -/
def calculateRSI (data : List Bar) : ℚ :=
  let gains := (rsiDiffs data).foldl (fun g d => if d ≥ 0 then g + d else g) 0
  let losses := (rsiDiffs data).foldl (fun l d => if d ≥ 0 then l else l - d) 0
  let averageGain := gains / (rsiPeriod : ℚ)
  let averageLoss := losses / (rsiPeriod : ℚ)
  if averageLoss = 0 then 100
  else
    let rs := averageGain / averageLoss
    100 - 100 / (1 + rs)

/-! ### Volume -/

structure VolumeAverages where
  tenDay : ℚ
  twentyDay : ℚ
deriving Repr, DecidableEq, Inhabited

structure VolumeRatios where
  tenDay : ℚ
  twentyDay : ℚ
deriving Repr, DecidableEq, Inhabited

structure ObvResult where
  value : ℚ
  momentum : ℚ
  trend : String
deriving Repr, DecidableEq, Inhabited

structure VolumeSignals where
  accumulation : Bool
  distribution : Bool
  intensity : String
deriving Repr, DecidableEq, Inhabited

structure VolumeResult where
  averages : VolumeAverages
  ratios : VolumeRatios
  current_vs_average : ℚ
  obv : ObvResult
  current : ℚ
  trend : String
  signals : VolumeSignals
deriving Repr, DecidableEq, Inhabited

/-- On-balance volume over a newest-first sub-series: each bar contributes
`+volume` when its close is above the chronologically previous close
(`data[i+1]`), `-volume` when below, `0` otherwise; the oldest bar (no
successor in the list) contributes `0`, matching the `prevClose = close`
branch.  The JavaScript loop runs oldest-to-newest; the sum is the same. -/
def obvSum (data : List Bar) : ℚ :=
  (data.zip (data.drop 1)).foldl
    (fun acc db =>
      if db.1.close > db.2.close then acc + db.1.volume
      else if db.1.close < db.2.close then acc - db.1.volume
      else acc) 0

/-- Source `analyzeVolume(data)` from `part_010`.  Divisions that are `0/0` in ℚ are
`NaN` in JavaScript; every comparison made on such a value is false in both
models, so the string fields agree wherever a theorem below looks at them. -/
def analyzeVolume (data : List Bar) : VolumeResult :=
  let volume10Day := ((data.take 10).map Bar.volume).sum / 10
  let volume20Day := ((data.take 20).map Bar.volume).sum / 20
  let currentVolume := (data.map Bar.volume).headD 0
  let volumeRatio10Day := currentVolume / volume10Day * 100
  let volumeRatio20Day := currentVolume / volume20Day * 100
  let obv := obvSum data
  let obvLag5 := obvSum (data.drop 5)
  let obvMomentum := (obv - obvLag5) / |obvLag5| * 100
  let volumeTrend :=
    if volumeRatio20Day > 110 then "INCREASING"
    else if volumeRatio20Day < 90 then "DECREASING" else "NEUTRAL"
  { averages := { tenDay := volume10Day, twentyDay := volume20Day }
    ratios := { tenDay := volumeRatio10Day, twentyDay := volumeRatio20Day }
    current_vs_average := volumeRatio20Day
    obv :=
      { value := obv
        momentum := obvMomentum
        trend :=
          if obvMomentum > 10 then "BULLISH"
          else if obvMomentum < -10 then "BEARISH" else "NEUTRAL" }
    current := currentVolume
    trend := volumeTrend
    signals :=
      { accumulation := decide (obvMomentum > 0) && decide (volumeRatio20Day > 100)
        distribution := decide (obvMomentum < 0) && decide (volumeRatio20Day > 100)
        intensity :=
          if volumeRatio20Day > 150 then "HIGH"
          else if volumeRatio20Day > 120 then "MEDIUM" else "LOW" } }

/-! ### Moving averages -/

structure CrossPair where
  bullish : Bool
  bearish : Bool
deriving Repr, DecidableEq, Inhabited

structure Crosses where
  ema20_sma50 : CrossPair
  ema20_sma200 : CrossPair
  sma50_sma200 : CrossPair
  hasRecentCross : Bool
deriving Repr, DecidableEq, Inhabited

structure PricePosition where
  aboveEma20 : Bool
  aboveSma50 : Bool
  aboveSma200 : Bool
  status : String
deriving Repr, DecidableEq, Inhabited

structure MAResult where
  ema20 : ℚ
  sma50 : ℚ
  sma200 : ℚ
  crosses : Crosses
  pricePosition : PricePosition
  trend : String
deriving Repr, DecidableEq, Inhabited

/-- Source `calculateMovingAverages(data)` from `part_010`. -/
def calculateMovingAverages (data : List Bar) : MAResult :=
  let prices := data.map Bar.close
  let ema20 := calculateEMA data 20
  let sma50 := calculateSMA prices 50
  let sma200 := calculateSMA prices 200
  let currentPrice := prices.headD 0
  let prevPrices := (data.drop 1).map Bar.close
  let prevEma20 := calculateEMA (data.drop 1) 20
  let prevSma50 := calculateSMA prevPrices 50
  let prevSma200 := calculateSMA prevPrices 200
  let ema20CrossSma50 : CrossPair :=
    { bullish := decide (prevEma20 < prevSma50) && decide (ema20 > sma50)
      bearish := decide (prevEma20 > prevSma50) && decide (ema20 < sma50) }
  let ema20CrossSma200 : CrossPair :=
    { bullish := decide (prevEma20 < prevSma200) && decide (ema20 > sma200)
      bearish := decide (prevEma20 > prevSma200) && decide (ema20 < sma200) }
  let sma50CrossSma200 : CrossPair :=
    { bullish := decide (prevSma50 < prevSma200) && decide (sma50 > sma200)
      bearish := decide (prevSma50 > prevSma200) && decide (sma50 < sma200) }
  let pricePosition : PricePosition :=
    { aboveEma20 := decide (currentPrice > ema20)
      aboveSma50 := decide (currentPrice > sma50)
      aboveSma200 := decide (currentPrice > sma200)
      status :=
        if currentPrice > sma200 then
          if currentPrice > sma50 then
            if currentPrice > ema20 then "STRONG_BULLISH" else "BULLISH"
          else "WEAK_BULLISH"
        else
          if currentPrice < sma50 then
            if currentPrice < ema20 then "STRONG_BEARISH" else "BEARISH"
          else "WEAK_BEARISH" }
  { ema20 := ema20
    sma50 := sma50
    sma200 := sma200
    crosses :=
      { ema20_sma50 := ema20CrossSma50
        ema20_sma200 := ema20CrossSma200
        sma50_sma200 := sma50CrossSma200
        hasRecentCross :=
          ema20CrossSma50.bullish || ema20CrossSma50.bearish ||
          ema20CrossSma200.bullish || ema20CrossSma200.bearish ||
          sma50CrossSma200.bullish || sma50CrossSma200.bearish }
    pricePosition := pricePosition
    trend :=
      if currentPrice > sma200 ∧ ema20 > sma50 ∧ sma50 > sma200 then "BULLISH"
      else if ¬(currentPrice > sma200) ∧ ema20 < sma50 ∧ sma50 < sma200 then "BEARISH"
      else "NEUTRAL" }

end TechnicalAnalysis

namespace TechnicalAnalysis

/-! ### ATR -/

structure AtrResult where
  value : ℚ
  history : List ℚ
  volatility : String
  risk_level : String
deriving Repr, DecidableEq, Inhabited

/-- Source `calculateRiskLevel(atr, price)` from `part_010`. -/
def calculateRiskLevel (atr price : ℚ) : String :=
  let atrPercent := atr / price * 100
  if atrPercent > 3 then "HIGH"
  else if atrPercent > 1.5 then "MEDIUM" else "LOW"

/-- The unshifted ATR list of `calculateATR`: the loop walks from the oldest
bar (`i = length-1`, whose chronological previous close is its own close)
toward the newest, seeding with the first true range and then applying
Wilder smoothing, unshifting each value so the head is the newest ATR. -/
def atrHistory (data : List Bar) : List ℚ :=
  (data.reverse.foldl
    (fun (acc : List ℚ × Option ℚ) b =>
      let prevClose := acc.2.getD b.close
      let tr := max (b.high - b.low) (max |b.high - prevClose| |b.low - prevClose|)
      let newList :=
        match acc.1 with
        | [] => [tr]
        | a :: rest => ((a * ((atrPeriod : ℚ) - 1) + tr) / (atrPeriod : ℚ)) :: a :: rest
      (newList, some b.close))
    ([], none)).1

/-- Source `calculateATR(data)` from `part_010`. -/
def calculateATR (data : List Bar) : AtrResult :=
  let atr := atrHistory data
  let value := atr.headD 0
  { value := value
    history := atr
    volatility :=
      if value > atr.getD (min 20 (atr.length - 1)) 0 then "INCREASING" else "DECREASING"
    risk_level := calculateRiskLevel value ((data.map Bar.close).headD 0) }

/-! ### MFI -/

structure MfiResult where
  value : ℚ
  history : List ℚ
  signal : String
  trend : String
  institutional_activity : String
deriving Repr, DecidableEq, Inhabited

/-- Source `determineInstitutionalActivity(mfiValue, volume)` from `part_010`. -/
def determineInstitutionalActivity (mfiValue volume : ℚ) : String :=
  if mfiValue > 60 ∧ volume > 1000000 then "ACCUMULATION"
  else if mfiValue < 40 ∧ volume > 1000000 then "DISTRIBUTION"
  else "NEUTRAL"

/-- One window of the MFI loop at index `i`: positive flow is money flow at
`i-j` when the typical price rose versus `i-j-1`; everything else — including
the comparison against the out-of-range index `-1` (JavaScript `undefined`,
comparison false) — goes to negative flow. -/
def mfiAt (typicalPrices moneyFlow : List ℚ) (i : ℕ) : ℚ :=
  let flows := (List.range mfiPeriod).map (fun j =>
    match typicalPrices.get? (i - j), (if j + 1 ≤ i then typicalPrices.get? (i - j - 1) else none) with
    | some tp, some prev =>
        if tp > prev then (moneyFlow.getD (i - j) 0, (0 : ℚ))
        else ((0 : ℚ), moneyFlow.getD (i - j) 0)
    | _, _ => ((0 : ℚ), moneyFlow.getD (i - j) 0))
  let posFlow := (flows.map Prod.fst).sum
  let negFlow := (flows.map Prod.snd).sum
  100 - 100 / (1 + posFlow / negFlow)

/-- Source `calculateMFI(data)` from `part_010`.  The history list is unshifted, so
its head is the value at the oldest window (`i = length-1`). -/
def calculateMFI (data : List Bar) : MfiResult :=
  let typicalPrices := data.map (fun b => (b.high + b.low + b.close) / 3)
  let moneyFlow := data.map (fun b => (b.high + b.low + b.close) / 3 * b.volume)
  let mfi := ((List.range' (mfiPeriod - 1) (typicalPrices.length - (mfiPeriod - 1))).map
    (mfiAt typicalPrices moneyFlow)).reverse
  let value := mfi.headD 0
  { value := value
    history := mfi
    signal :=
      if value > 80 then "OVERBOUGHT"
      else if value < 20 then "OVERSOLD" else "NEUTRAL"
    trend := if value > mfi.getD (min 5 (mfi.length - 1)) 0 then "BULLISH" else "BEARISH"
    institutional_activity :=
      determineInstitutionalActivity value ((data.map Bar.volume).headD 0) }

/-! ### Fibonacci retracement -/

/-- The running "nearest" record of `findNearestFibonacciLevel`; `none`
models the initial `null` / `Infinity` fields. -/
structure NearestLevel where
  level : Option ℚ
  price : Option ℚ
  distance : Option ℚ
  type : Option String
deriving Repr, DecidableEq, Inhabited

/-- Source `findNearestFibonacciLevel(currentPrice, fibLevels)` from `part_010`:
fold over the level entries keeping the strictly closest one; the winning
entry is tagged `support` when the current price is above it, else
`resistance`. -/
def findNearestFibonacciLevel (currentPrice : ℚ) (levels : List (ℚ × ℚ)) : NearestLevel :=
  levels.foldl
    (fun nearest kv =>
      let distance := |currentPrice - kv.2|
      let better :=
        match nearest.distance with
        | none => true
        | some d => decide (distance < d)
      if better then
        { level := some kv.1
          price := some kv.2
          distance := some distance
          type := some (if currentPrice > kv.2 then "support" else "resistance") }
      else nearest)
    { level := none, price := none, distance := none, type := none }

structure FibResult where
  levels : List (ℚ × ℚ)
  nearest : NearestLevel
  support : List (ℚ × ℚ)
  resistance : List (ℚ × ℚ)
deriving Repr, DecidableEq, Inhabited

/-- Source `calculateFibonacciLevels(data)` from `part_010`.  Level keys are the
fraction values themselves (JavaScript uses their string form). -/
def calculateFibonacciLevels (data : List Bar) : FibResult :=
  let high := listMax (data.map Bar.high)
  let low := listMin (data.map Bar.low)
  let diff := high - low
  let levels := fibLevels.map (fun level => (level, high - diff * level))
  let currentPrice := (data.map Bar.close).headD 0
  { levels := levels
    nearest := findNearestFibonacciLevel currentPrice levels
    support := levels.filter (fun kv => kv.2 < currentPrice)
    resistance := levels.filter (fun kv => kv.2 > currentPrice) }

end TechnicalAnalysis

namespace BollingerBands

structure Squeeze where
  isSqueezing : Bool
  bandwidthPercentile : ℚ
  averageBandwidth : ℚ
  currentBandwidth : ℚ
deriving Repr, DecidableEq, Inhabited

structure Band where
  middle : ℚ
  upper : ℚ
  lower : ℚ
  bandwidth : ℚ
  squeeze : Squeeze
deriving Repr, DecidableEq, Inhabited

/-- Source `calculateSMA(data)` of `BollingerBands.js` (divides by the actual
length). -/
def calculateSMA (data : List ℚ) : ℚ :=
  data.foldl (· + ·) 0 / (data.length : ℚ)

/-- Source `calculateStandardDeviation(data, sma)` of `BollingerBands.js`:
population variance, then `Math.sqrt` — modelled by the abstract `rsqrt`. -/
def calculateStandardDeviation (rsqrt : ℚ → ℚ) (data : List ℚ) (sma : ℚ) : ℚ :=
  rsqrt ((data.map (fun price => (price - sma) ^ 2)).foldl (· + ·) 0 / (data.length : ℚ))

/-- Source `calculate()` of `BollingerBands.js`: one band per window
`prices[i-period+1 .. i]` for `i = period-1 .. length-1` (so the *first* band
uses the newest window and the last band the oldest), each with squeeze
metrics against the trailing 20 already-computed bands. -/
def calculate (rsqrt : ℚ → ℚ) (data : List Bar) (period : ℕ) (multiplier : ℚ) :
    List Band :=
  let prices := data.map Bar.close
  (List.range (prices.length + 1 - period)).foldl
    (fun bands j =>
      let slice := (prices.drop j).take period
      let sma := calculateSMA slice
      let stdDev := calculateStandardDeviation rsqrt slice sma
      let bandwidth := multiplier * stdDev * 2 / sma * 100
      let recentBandwidths := (takeLast bands 20).map Band.bandwidth
      let averageBandwidth :=
        if recentBandwidths.length > 0 then calculateSMA recentBandwidths else bandwidth
      bands ++ [{ middle := sma
                  upper := sma + multiplier * stdDev
                  lower := sma - multiplier * stdDev
                  bandwidth := bandwidth
                  squeeze :=
                    { isSqueezing := decide (bandwidth < averageBandwidth * 0.5)
                      bandwidthPercentile := bandwidth / averageBandwidth * 100
                      averageBandwidth := averageBandwidth
                      currentBandwidth := bandwidth } }])
    []

end BollingerBands

namespace TechnicalAnalysis

/-! ### Bollinger wrapper of `part_010` -/

structure BBSqueezeInfo where
  active : Bool
  intensity : String
  bandwidthPercentile : ℚ
  currentBandwidth : ℚ
  averageBandwidth : ℚ
deriving Repr, DecidableEq, Inhabited

structure BBVolatility where
  state : String
  current : ℚ
  average : ℚ
  max : ℚ
  min : ℚ
deriving Repr, DecidableEq, Inhabited

structure BBResult where
  upper : ℚ
  middle : ℚ
  lower : ℚ
  width : ℚ
  squeeze : BBSqueezeInfo
  volatility : BBVolatility
deriving Repr, DecidableEq, Inhabited

/-- Source `calculateBollingerBands(data)` from `part_010`: runs the
`BollingerBands` calculator with period 20 / multiplier 2 and summarises the
*last* band of the returned array together with bandwidth statistics over the
last 50 bands. -/
def calculateBollingerBands (rsqrt : ℚ → ℚ) (data : List Bar) : BBResult :=
  let bands := BollingerBands.calculate rsqrt data bbPeriod bbStdDev
  let latest := bands.getLastD default
  let bandwidths := (takeLast bands 50).map BollingerBands.Band.bandwidth
  let maxBandwidth := listMax bandwidths
  let minBandwidth := listMin bandwidths
  let avgBandwidth := bandwidths.sum / (bandwidths.length : ℚ)
  let volatilityState :=
    if latest.bandwidth > avgBandwidth * 1.5 then "HIGH"
    else if latest.bandwidth < avgBandwidth * 0.5 then "LOW" else "NORMAL"
  let squeezeIntensity :=
    if latest.squeeze.bandwidthPercentile < 20 then "STRONG"
    else if latest.squeeze.bandwidthPercentile < 40 then "MODERATE" else "NONE"
  { upper := latest.upper
    middle := latest.middle
    lower := latest.lower
    width := latest.bandwidth
    squeeze :=
      { active := latest.squeeze.isSqueezing
        intensity := squeezeIntensity
        bandwidthPercentile := latest.squeeze.bandwidthPercentile
        currentBandwidth := latest.squeeze.currentBandwidth
        averageBandwidth := latest.squeeze.averageBandwidth }
    volatility :=
      { state := volatilityState
        current := latest.bandwidth
        average := avgBandwidth
        max := maxBandwidth
        min := minBandwidth } }

/-! ### Breakout fusion (`analyzeBreakout`) -/

/-- Exactly the fields of the `indicators` argument that `analyzeBreakout`
reads.  `patternsFound`, `dominantType` and `dominantConfidence` model
`patterns.summary.patternsFound` and `patterns.summary.dominantPattern`;
when the pattern-service summary does not define those keys the JavaScript
reads give `undefined` (falsy), i.e. `patternsFound = false`. -/
structure BreakoutIndicators where
  bbUpper : ℚ
  bbLower : ℚ
  macdHistogram : ℚ
  volRatio20Day : ℚ
  maTrend : String
  atrValue : ℚ
  mfiValue : ℚ
  mfiSignal : String
  mfiInstitutional : String
  fibLevels : List (ℚ × ℚ)
  patternsFound : Bool
  dominantType : String
  dominantConfidence : ℚ
deriving Repr, DecidableEq, Inhabited

/-- Source `bbSignal` of `analyzeBreakout`. -/
def bbSignalOf (currentPrice upper lower : ℚ) : String :=
  if currentPrice > upper then "LONG"
  else if currentPrice < lower then "SHORT" else "NEUTRAL"

/-- Source `macdSignal` of `analyzeBreakout`. -/
def macdSignalOf (histogram : ℚ) : String :=
  if histogram > 0 then "LONG"
  else if histogram < 0 then "SHORT" else "NEUTRAL"

/-- Source `volumeSignal` of `analyzeBreakout`. -/
def volumeSignalOf (volRatio20Day : ℚ) : String :=
  if volRatio20Day > 150 then "STRONG"
  else if volRatio20Day > 120 then "MODERATE" else "WEAK"

/-- Source `patternSignal` of `analyzeBreakout`: the `switch` over the dominant
pattern type (only entered when `patterns.summary.patternsFound`). -/
def patternSignalOf (found : Bool) (dominantType maTrend : String) : String :=
  if found then
    if dominantType = "BULL_FLAG" ∨ dominantType = "BULL_PENNANT" ∨
        dominantType = "ASCENDING_TRIANGLE" then "LONG"
    else if dominantType = "BEAR_FLAG" ∨ dominantType = "BEAR_PENNANT" ∨
        dominantType = "DESCENDING_TRIANGLE" ∨ dominantType = "HEAD_AND_SHOULDERS" then "SHORT"
    else if dominantType = "SYMMETRIC_TRIANGLE" then
      if maTrend = "BULLISH" then "LONG" else "SHORT"
    else "NEUTRAL"
  else "NEUTRAL"

/-- Source `patternConfidence` of `analyzeBreakout` (0 unless a dominant pattern was
found). -/
def patternConfidenceOf (found : Bool) (dominantConfidence : ℚ) : ℚ :=
  if found then dominantConfidence else 0

/-- Source `fibonacciSignal` of `analyzeBreakout`: recomputed from
`fibonacci.levels`; `SHORT` exactly when the nearest level is tagged
resistance (a `null` tag — empty level table — is not `resistance`, hence
`LONG`). -/
def fibonacciSignalOf (currentPrice : ℚ) (levels : List (ℚ × ℚ)) : String :=
  if (findNearestFibonacciLevel currentPrice levels).type = some "resistance" then "SHORT"
  else "LONG"

/-- Source `signals.technical`. -/
def technicalValue (bbSignal : String) : ℚ :=
  if bbSignal = "LONG" then 1 else if bbSignal = "SHORT" then -1 else 0

/-- Source `signals.momentum`. -/
def momentumValue (macdSignal : String) : ℚ :=
  if macdSignal = "LONG" then 1 else if macdSignal = "SHORT" then -1 else 0

/-- Source `signals.volume`. -/
def volumeValue (volumeSignal : String) : ℚ :=
  if volumeSignal = "STRONG" then 1 else if volumeSignal = "WEAK" then 0 else 0.5

/-- Source `signals.pattern`. -/
def patternValue (patternSignal : String) : ℚ :=
  if patternSignal = "LONG" then 1 else if patternSignal = "SHORT" then -1 else 0

/-- Source `signals.fibonacci`. -/
def fibonacciValue (fibonacciSignal : String) : ℚ :=
  if fibonacciSignal = "LONG" then 1 else -1

/-- The fixed signal weights of `analyzeBreakout`. -/
def weightTechnical : ℚ := 0.25
/-- momentum weight -/
def weightMomentum : ℚ := 0.2
/-- volume weight -/
def weightVolume : ℚ := 0.15
/-- pattern weight -/
def weightPattern : ℚ := 0.25
/-- fibonacci weight -/
def weightFibonacci : ℚ := 0.15

/-- The weighted sum of the five signal values. -/
def breakoutWeightedSum (currentPrice : ℚ) (ind : BreakoutIndicators) : ℚ :=
  technicalValue (bbSignalOf currentPrice ind.bbUpper ind.bbLower) * weightTechnical +
  momentumValue (macdSignalOf ind.macdHistogram) * weightMomentum +
  volumeValue (volumeSignalOf ind.volRatio20Day) * weightVolume +
  patternValue (patternSignalOf ind.patternsFound ind.dominantType ind.maTrend) * weightPattern +
  fibonacciValue (fibonacciSignalOf currentPrice ind.fibLevels) * weightFibonacci

structure BreakoutSignals where
  bollinger : String
  macd : String
  volume : String
  pattern : String
  volatility : String
  institutional : String
  fibonacci : String
deriving Repr, DecidableEq, Inhabited

structure BreakoutResult where
  direction : String
  probability : ℚ
  confidence : ℤ
  signals : BreakoutSignals
deriving Repr, DecidableEq, Inhabited

/-- The keys of the object literal returned by `analyzeBreakout` in
`part_010` (its `details` sub-object only repackages inputs and is not
modelled field-by-field). -/
def analyzeBreakoutResultKeys : List String :=
  ["direction", "probability", "confidence", "signals", "details"]

/-- Source `analyzeBreakout(data, indicators)` from `part_010`. -/
def analyzeBreakout (data : List Bar) (ind : BreakoutIndicators) : BreakoutResult :=
  let currentPrice := (data.map Bar.close).headD 0
  let bbSignal := bbSignalOf currentPrice ind.bbUpper ind.bbLower
  let macdSignal := macdSignalOf ind.macdHistogram
  let volumeSignal := volumeSignalOf ind.volRatio20Day
  let patternSignal := patternSignalOf ind.patternsFound ind.dominantType ind.maTrend
  let patternConfidence := patternConfidenceOf ind.patternsFound ind.dominantConfidence
  let volatility := ind.atrValue / currentPrice * 100
  let volatilitySignal :=
    if volatility > 3 then "HIGH"
    else if volatility > 1.5 then "MODERATE" else "LOW"
  let fibonacciSignal := fibonacciSignalOf currentPrice ind.fibLevels
  let weightedSum := breakoutWeightedSum currentPrice ind
  let direction :=
    if weightedSum > 0.2 then "LONG"
    else if weightedSum < -0.2 then "SHORT" else "NEUTRAL"
  let probability := min 95 (|weightedSum| * 100)
  let confidenceAdjustment :=
    if patternConfidence > 0 then (patternConfidence - 50) / 100 else 0
  { direction := direction
    probability := max 5 (min 95 (probability * (1 + confidenceAdjustment)))
    confidence := jsRound (probability * (1 + confidenceAdjustment))
    signals :=
      { bollinger := bbSignal
        macd := macdSignal
        volume := volumeSignal
        pattern := patternSignal
        volatility := volatilitySignal
        institutional := ind.mfiInstitutional
        fibonacci := fibonacciSignal } }

end TechnicalAnalysis

namespace PatternRecognitionService

/-- Source `this.minPatternBars` -/
def minPatternBars : ℕ := 5
/-- Source `this.maxPatternBars` -/
def maxPatternBars : ℕ := 30
/-- Source `this.priceDeviation` -/
def priceDeviation : ℚ := 0.02

/-- Source `calculateTrendlineSlope(prices)`: ordinary-least-squares slope over
index-versus-value (`0/0 = 0` in ℚ where JavaScript yields `NaN`; every
comparison made on such a slope is false in both models). -/
def calculateTrendlineSlope (prices : List ℚ) : ℚ :=
  let n : ℚ := prices.length
  let sumX := idxSum prices.length
  let sumY := prices.sum
  let sumXY := idxWeightedSum 0 prices
  let sumX2 := idxSqSum prices.length
  (n * sumXY - sumX * sumY) / (n * sumX2 - sumX * sumX)

structure Trendline where
  slope : ℚ
  intercept : ℚ
  r2 : ℚ
deriving Repr, DecidableEq, Inhabited

/-- The sum `Σ (y - yMean)²` / `Σ (y - (slope·x + intercept))²` helper. -/
def sqDevSum (f : ℕ → ℚ) : ℕ → List ℚ → ℚ
  | _, [] => 0
  | i, y :: ys => (y - f i) ^ 2 + sqDevSum f (i + 1) ys

/-- Source `calculateTrendline(prices)`: OLS slope, intercept and R². -/
def calculateTrendline (prices : List ℚ) : Trendline :=
  let n : ℚ := prices.length
  let sumX := idxSum prices.length
  let sumY := prices.sum
  let sumXY := idxWeightedSum 0 prices
  let sumX2 := idxSqSum prices.length
  let slope := (n * sumXY - sumX * sumY) / (n * sumX2 - sumX * sumX)
  let intercept := (sumY - slope * sumX) / n
  let yMean := sumY / n
  let ssTotal := sqDevSum (fun _ => yMean) 0 prices
  let ssResidual := sqDevSum (fun i => slope * i + intercept) 0 prices
  { slope := slope, intercept := intercept, r2 := 1 - ssResidual / ssTotal }

/-- The consecutive-return series `(prices[i] - prices[i-1]) / prices[i-1]`
for `i = 1 .. length-1`. -/
def consecutiveReturns (prices : List ℚ) : List ℚ :=
  (prices.zip (prices.drop 1)).map (fun ab => (ab.2 - ab.1) / ab.1)

/-- Source `calculateTrendStrength(prices)`: fraction of positive consecutive
returns. -/
def calculateTrendStrength (prices : List ℚ) : ℚ :=
  let returns := consecutiveReturns prices
  (((returns.filter (fun r => decide (r > 0))).length : ℚ)) / (returns.length : ℚ)

/-- Source `checkVolumeDeclining(data)`. -/
def checkVolumeDeclining (data : List Bar) : Bool :=
  decide (calculateTrendlineSlope (data.map Bar.volume) < 0)

structure TrendInfo where
  isValid : Bool
  strength : ℚ
  length : ℕ
deriving Repr, DecidableEq, Inhabited

/-- Source `identifyUptrend(data)`. -/
def identifyUptrend (data : List Bar) : TrendInfo :=
  let prices := data.map Bar.close
  let slope := calculateTrendlineSlope prices
  let strength := calculateTrendStrength prices
  { isValid := decide (slope > 0) && decide (strength > 0.7)
    strength := strength
    length := data.length * 3 / 10 }

/-- Source `identifyDowntrend(data)`. -/
def identifyDowntrend (data : List Bar) : TrendInfo :=
  let prices := data.map Bar.close
  let slope := calculateTrendlineSlope prices
  let strength := calculateTrendStrength prices
  { isValid := decide (slope < 0) && decide (strength > 0.7)
    strength := |strength|
    length := data.length * 3 / 10 }

structure ConsolidationInfo where
  isValid : Bool
  quality : ℚ
  length : ℕ
deriving Repr, DecidableEq, Inhabited

/-- Source `identifyConsolidation(data)`. -/
def identifyConsolidation (data : List Bar) : ConsolidationInfo :=
  let prices := data.map Bar.close
  let high := listMax prices
  let low := listMin prices
  let priceRange := (high - low) / low
  { isValid := decide (priceRange ≤ priceDeviation)
    quality := 1 - priceRange / priceDeviation
    length := data.length * 7 / 10 }

structure MoveInfo where
  isValid : Bool
  direction : String
  strength : ℚ
  length : ℕ
deriving Repr, DecidableEq, Inhabited

/-- Source `identifyStrongMove(data)`. -/
def identifyStrongMove (data : List Bar) : MoveInfo :=
  let prices := data.map Bar.close
  let returns := consecutiveReturns prices
  let total := returns.sum
  { isValid := decide (|total| > 0.1)
    direction := if total > 0 then "up" else "down"
    strength := |total|
    length := data.length * 3 / 10 }

structure ConvInfo where
  isValid : Bool
  quality : ℚ
  length : ℕ
deriving Repr, DecidableEq, Inhabited

/-- Source `identifyConvergence(data)`. -/
def identifyConvergence (data : List Bar) : ConvInfo :=
  let highTrend := calculateTrendlineSlope (data.map Bar.high)
  let lowTrend := calculateTrendlineSlope (data.map Bar.low)
  let convergenceRate := |highTrend - lowTrend|
  { isValid := decide (highTrend < 0) && decide (lowTrend > 0)
    quality := min 1 (convergenceRate / 0.01)
    length := data.length }

/-- Source `determineTriangleType(upperSlope, lowerSlope)`. -/
def determineTriangleType (upperSlope lowerSlope : ℚ) : Option String :=
  if |upperSlope + lowerSlope| < 0.001 then some "SYMMETRIC_TRIANGLE"
  else if |upperSlope| < 0.001 ∧ lowerSlope > 0 then some "ASCENDING_TRIANGLE"
  else if |lowerSlope| < 0.001 ∧ upperSlope < 0 then some "DESCENDING_TRIANGLE"
  else if upperSlope > 0 ∧ lowerSlope < 0 then some "EXPANDING_TRIANGLE"
  else none

structure ConvPoint where
  isValid : Bool
  quality : ℚ
  x : ℚ
  y : ℚ
  upperR2 : ℚ
  lowerR2 : ℚ
deriving Repr, DecidableEq, Inhabited

/-- Source `findConvergencePoint(upperTrendline, lowerTrendline)`: intersection of
the two fitted lines (`0/0 = 0` in ℚ where JavaScript yields `±Infinity` or
`NaN` for parallel lines; both fail the `x > 0 && x < 60` validity test). -/
def findConvergencePoint (upper lower : Trendline) : ConvPoint :=
  let x := (lower.intercept - upper.intercept) / (upper.slope - lower.slope)
  let y := upper.slope * x + upper.intercept
  { isValid := decide (x > 0) && decide (x < (maxPatternBars : ℚ) * 2)
    quality := (upper.r2 + lower.r2) / 2 * (1 - min (x / ((maxPatternBars : ℚ) * 2)) 1)
    x := x
    y := y
    upperR2 := upper.r2
    lowerR2 := lower.r2 }

structure Peak where
  index : ℕ
  price : ℚ
deriving Repr, DecidableEq, Inhabited

/-- Source `findSignificantPeaks(data)`: local maxima of the high series, at least
`length/10` bars apart from the previously recorded peak. -/
def findSignificantPeaks (data : List Bar) : List Peak :=
  let prices := data.map Bar.high
  let minPeakDistance := data.length / 10
  (List.range' 1 (prices.length - 2)).foldl
    (fun peaks i =>
      if prices.getD i 0 > prices.getD (i - 1) 0 ∧ prices.getD i 0 > prices.getD (i + 1) 0 then
        if peaks = [] ∨ i - (peaks.getLastD default).index > minPeakDistance then
          peaks ++ [{ index := i, price := prices.getD i 0 }]
        else peaks
      else peaks)
    []

/-- Source `findTrough(data, peakIndex)`: index of the lowest low in the 9 bars
after the peak. -/
def findTrough (data : List Bar) (peakIndex : ℕ) : ℕ :=
  ((List.range' (peakIndex + 1) (min data.length (peakIndex + 10) - (peakIndex + 1))).foldl
    (fun (acc : ℕ × ℚ) i =>
      if (data.getD i default).low < acc.2 then (i, (data.getD i default).low) else acc)
    (peakIndex, (data.getD peakIndex default).low)).1

/-- Source `calculateNeckline(data, shoulder1Index, shoulder2Index)`. -/
def calculateNeckline (data : List Bar) (shoulder1Index shoulder2Index : ℕ) : Trendline :=
  let trough1 := findTrough data shoulder1Index
  let trough2 := findTrough data shoulder2Index
  calculateTrendline [(data.getD trough1 default).low, (data.getD trough2 default).low]

/-- Source `validateVolume(data, patternIndices)`: strictly decreasing volume at the
three pattern indices. -/
def validateVolume (data : List Bar) (patternIndices : List ℕ) : Bool :=
  let volumes := patternIndices.map (fun i => (data.getD i default).volume)
  decide (volumes.getD 0 0 > volumes.getD 1 0) && decide (volumes.getD 1 0 > volumes.getD 2 0)

/-- Stable descending-by-price insertion sort modelling
`[...peaks].sort((a, b) => b.price - a.price)` (the sort operates on a
copy). -/
def insertDescByPrice (p : Peak) : List Peak → List Peak
  | [] => [p]
  | q :: qs => if p.price > q.price then p :: q :: qs else q :: insertDescByPrice p qs

/-- see `insertDescByPrice` -/
def sortDescByPrice : List Peak → List Peak
  | [] => []
  | p :: ps => insertDescByPrice p (sortDescByPrice ps)

structure Formation where
  isValid : Bool
  symmetry : ℚ := 0
  necklineQuality : ℚ := 0
  volumePattern : Bool := false
  startIndex : ℕ := 0
  endIndex : ℕ := 0
  neckline : Trendline := default
deriving Repr, DecidableEq, Inhabited

/-- Source `validateHeadAndShoulders(peaks, data)`. -/
def validateHeadAndShoulders (peaks : List Peak) (data : List Bar) : Formation :=
  if peaks.length < 3 then { isValid := false }
  else
    let sortedPeaks := sortDescByPrice peaks
    let head := sortedPeaks.getD 0 default
    let shoulder1 := sortedPeaks.getD 1 default
    let shoulder2 := sortedPeaks.getD 2 default
    let shoulderDiff := |shoulder1.price - shoulder2.price|
    let shoulderToHeadRatio := |shoulder1.price - head.price| / head.price
    let symmetry := 1 - shoulderDiff / head.price
    let neckline := calculateNeckline data shoulder1.index shoulder2.index
    { isValid := decide (shoulderToHeadRatio > 0.1) && decide (symmetry > 0.8) &&
        decide (neckline.r2 > 0.7)
      symmetry := symmetry
      necklineQuality := neckline.r2
      volumePattern := validateVolume data [shoulder1.index, head.index, shoulder2.index]
      startIndex := min shoulder1.index shoulder2.index
      endIndex := max shoulder1.index shoulder2.index
      neckline := neckline }

end PatternRecognitionService

namespace PatternRecognitionService

/-- Superset of the fields the five detectors return.  Fields a given
detector does not set keep their default, matching a missing (undefined,
falsy) JavaScript field wherever the engine later reads one. -/
structure PatternDet where
  detected : Bool
  strength : ℚ := 0
  volumeConfirmation : Bool := false
  consolidationLength : Option ℕ := none
  support : ℚ := 0
  startIndex : ℕ := 0
  endIndex : ℕ := 0
  ptype : String := ""
deriving Repr, DecidableEq, Inhabited

/-- Source `detectBullFlag(data)`. -/
def detectBullFlag (data : List Bar) : PatternDet :=
  let lookback := min maxPatternBars data.length
  let priceData := data.take lookback
  let uptrend := identifyUptrend priceData
  if uptrend.isValid = false then { detected := false }
  else
    let consolidation := identifyConsolidation (priceData.drop uptrend.length)
    if consolidation.isValid = false then { detected := false }
    else
      let volumeDecline := checkVolumeDeclining (priceData.drop uptrend.length)
      { detected := true
        strength := uptrend.strength
        consolidationLength := some consolidation.length
        volumeConfirmation := volumeDecline
        startIndex := 0
        endIndex := uptrend.length + consolidation.length
        ptype := "BULL_FLAG" }

/-- Source `detectBearFlag(data)`. -/
def detectBearFlag (data : List Bar) : PatternDet :=
  let lookback := min maxPatternBars data.length
  let priceData := data.take lookback
  let downtrend := identifyDowntrend priceData
  if downtrend.isValid = false then { detected := false }
  else
    let consolidation := identifyConsolidation (priceData.drop downtrend.length)
    if consolidation.isValid = false then { detected := false }
    else
      let volumeDecline := checkVolumeDeclining (priceData.drop downtrend.length)
      { detected := true
        strength := downtrend.strength
        consolidationLength := some consolidation.length
        volumeConfirmation := volumeDecline
        startIndex := 0
        endIndex := downtrend.length + consolidation.length
        ptype := "BEAR_FLAG" }

/-- Source `detectPennant(data)`. -/
def detectPennant (data : List Bar) : PatternDet :=
  let lookback := min maxPatternBars data.length
  let priceData := data.take lookback
  let trend := identifyStrongMove priceData
  if trend.isValid = false then { detected := false }
  else
    let convergence := identifyConvergence (priceData.drop trend.length)
    if convergence.isValid = false then { detected := false }
    else
      { detected := true
        strength := trend.strength
        volumeConfirmation := checkVolumeDeclining (priceData.drop trend.length)
        startIndex := 0
        endIndex := trend.length + convergence.length
        ptype := if trend.direction = "up" then "BULL_PENNANT" else "BEAR_PENNANT" }

/-- Source `detectTriangle(data)`. -/
def detectTriangle (data : List Bar) : PatternDet :=
  let lookback := min maxPatternBars data.length
  let priceData := data.take lookback
  let upperTrendline := calculateTrendline (priceData.map Bar.high)
  let lowerTrendline := calculateTrendline (priceData.map Bar.low)
  match determineTriangleType upperTrendline.slope lowerTrendline.slope with
  | none => { detected := false }
  | some t =>
    let convergencePoint := findConvergencePoint upperTrendline lowerTrendline
    if convergencePoint.isValid = false then { detected := false }
    else
      { detected := true
        strength := (upperTrendline.r2 + lowerTrendline.r2) / 2
        support := convergencePoint.y
        startIndex := 0
        endIndex := lookback - 1
        ptype := t }

/-- Source `detectHeadAndShoulders(data)`. -/
def detectHeadAndShoulders (data : List Bar) : PatternDet :=
  let lookback := min maxPatternBars data.length
  let priceData := data.take lookback
  let peaks := findSignificantPeaks priceData
  if peaks.length < 3 then { detected := false }
  else
    let formation := validateHeadAndShoulders peaks priceData
    if formation.isValid = false then { detected := false }
    else
      { detected := true
        strength := formation.symmetry
        volumeConfirmation := formation.volumePattern
        startIndex := formation.startIndex
        endIndex := formation.endIndex
        ptype := "HEAD_AND_SHOULDERS" }

/-- Source `calculatePatternConfidence(pattern, data)` of the pattern service:
`pattern.strength || 0.5`, plus `0.1` for volume confirmation, capped at 1.
The `pattern.trendStrength > 0.7` and `pattern.priceDeviation < 0.02`
bonuses compare fields no detector ever sets (`undefined` in JavaScript, so
both comparisons are always false) and therefore never fire. -/
def calculatePatternConfidence (pattern : PatternDet) : ℚ :=
  let confidence := if pattern.strength = 0 then 0.5 else pattern.strength
  let confidence := if pattern.volumeConfirmation then confidence + 0.1 else confidence
  min confidence 1

/-- Source `pattern.consolidation?.length || 5`. -/
def consolidationLengthOr5 (o : Option ℕ) : ℕ :=
  match o with
  | some n => if n = 0 then 5 else n
  | none => 5

/-- Source `calculatePatternStopLoss(pattern, data)` (the switch runs after
`pattern.type` has been overwritten with the enumeration key).  In the
`headAndShoulders` branch the JavaScript subtracts the neckline *object*
from a number, producing `NaN`, modelled as `none`. -/
def calculatePatternStopLoss (data : List Bar) (pattern : PatternDet) : Option ℚ :=
  let currentPrice := (data.map Bar.close).headD 0
  let stopLossLevel : Option ℚ :=
    if pattern.ptype = "bullFlag" ∨ pattern.ptype = "pennant" then
      some (listMin ((data.take (consolidationLengthOr5 pattern.consolidationLength)).map Bar.low))
    else if pattern.ptype = "bearFlag" then
      some (listMax ((data.take (consolidationLengthOr5 pattern.consolidationLength)).map Bar.high))
    else if pattern.ptype = "triangle" then
      some (if pattern.support = 0 then currentPrice * 0.95 else pattern.support)
    else if pattern.ptype = "headAndShoulders" then none
    else some (currentPrice * 0.95)
  stopLossLevel.map (fun lvl => |currentPrice - lvl| / currentPrice)

structure PatternListItem where
  ptype : String
  confidence : ℚ
  stopLoss : Option ℚ
deriving Repr, DecidableEq, Inhabited

structure PatternSummary where
  detected : Bool
  primaryPattern : Option String := none
  confidence : ℚ := 0
deriving Repr, DecidableEq, Inhabited

structure PatternsAnalysis where
  patterns : List PatternListItem
  summary : PatternSummary
deriving Repr, DecidableEq, Inhabited

/-- The five detectors in the fixed enumeration order, with their keys. -/
def detectorResults (data : List Bar) : List (String × PatternDet) :=
  [("bullFlag", detectBullFlag data),
   ("bearFlag", detectBearFlag data),
   ("pennant", detectPennant data),
   ("triangle", detectTriangle data),
   ("headAndShoulders", detectHeadAndShoulders data)]

/-- The enrichment loop of `analyzePatterns`: each detected pattern gets
`type := key` (overwriting the detector's own type string), a confidence and
a stop loss. -/
def enrichedResults (data : List Bar) : List (String × PatternDet × ℚ × Option ℚ) :=
  (detectorResults data).map (fun kp =>
    let pat := { kp.2 with ptype := kp.1 }
    (kp.1, pat, calculatePatternConfidence pat, calculatePatternStopLoss data pat))

/-- Source `generatePatternSummary(patterns)`: summary of the detected patterns;
the strongest is the first one of maximal confidence (the `reduce` keeps the
earlier entry on ties). -/
def generatePatternSummary (enr : List (String × PatternDet × ℚ × Option ℚ)) :
    PatternSummary :=
  let detectedPatterns := enr.filter (fun e => e.2.1.detected)
  match detectedPatterns with
  | [] => { detected := false }
  | first :: rest =>
    let strongest := rest.foldl
      (fun prev curr => if curr.2.2.1 > prev.2.2.1 then curr else prev) first
    { detected := true
      primaryPattern := some strongest.1
      confidence := strongest.2.2.1 }

/-- Source `analyzePatterns(data)` of the pattern service: short series short-circuit
to a not-detected summary, otherwise run the detectors, enrich the detected
ones and summarise. -/
def analyzePatterns (data : List Bar) : PatternsAnalysis :=
  if data.length < minPatternBars then
    { patterns := [], summary := { detected := false } }
  else
    let enr := enrichedResults data
    { patterns :=
        (enr.filter (fun e => e.2.1.detected)).map
          (fun e => { ptype := e.1, confidence := e.2.2.1, stopLoss := e.2.2.2 })
      summary := generatePatternSummary enr }

end PatternRecognitionService

namespace TechnicalAnalysis

/-- The aggregate returned by `analyze` on success.  The `ema` field is
`calculateEMA(marketData)` *called without a period*: the JavaScript
multiplier is `2/(undefined+1) = NaN` and the loop bound is `NaN`, so the
field is always `NaN`, modelled as `none`. -/
structure AnalysisResult where
  rsi : ℚ
  macd : MacdResult
  ema : Option ℚ
  bollingerBands : BBResult
  volume : VolumeResult
  movingAverages : MAResult
  atr : AtrResult
  mfi : MfiResult
  fibonacci : FibResult
  patterns : PatternRecognitionService.PatternsAnalysis
  breakout : BreakoutResult
  direction : String
  probability : ℚ
deriving Repr, DecidableEq, Inhabited

/-- Outcome of `analyze`: the guard path `return null` or a result object.
The body after the guard is a total computation (no reachable `throw`), so no
third alternative is needed. -/
inductive AnalyzeOutcome where
  | nullResult
  | ok (r : AnalysisResult)
deriving Repr, DecidableEq, Inhabited

/-- The `indicators` record `analyze` hands to `analyzeBreakout`, assembled
from the computed indicator results.  `patterns.summary` (from
`PatternRecognitionService.generatePatternSummary`) has keys
`detected`/`primaryPattern`/`confidence`, so the reads of
`summary.patternsFound` and `summary.dominantPattern` in `analyzeBreakout`
yield `undefined`: the pattern branch is never entered, modelled by
`patternsFound := false` with neutral defaults for the dominant pattern. -/
def assembleBreakoutIndicators (rsqrt : ℚ → ℚ) (data : List Bar) : BreakoutIndicators :=
  let bollingerBands := calculateBollingerBands rsqrt data
  let volume := analyzeVolume data
  let macd := calculateMACD data
  let movingAverages := calculateMovingAverages data
  let atr := calculateATR data
  let mfi := calculateMFI data
  let fibonacci := calculateFibonacciLevels data
  { bbUpper := bollingerBands.upper
    bbLower := bollingerBands.lower
    macdHistogram := macd.histogram
    volRatio20Day := volume.ratios.twentyDay
    maTrend := movingAverages.trend
    atrValue := atr.value
    mfiValue := mfi.value
    mfiSignal := mfi.signal
    mfiInstitutional := mfi.institutional_activity
    fibLevels := fibonacci.levels
    patternsFound := false
    dominantType := ""
    dominantConfidence := 0 }

/-- The success branch of `analyze(marketData)`. -/
def analyzeBody (rsqrt : ℚ → ℚ) (data : List Bar) : AnalysisResult :=
  let breakout := analyzeBreakout data (assembleBreakoutIndicators rsqrt data)
  { rsi := calculateRSI data
    macd := calculateMACD data
    ema := none
    bollingerBands := calculateBollingerBands rsqrt data
    volume := analyzeVolume data
    movingAverages := calculateMovingAverages data
    atr := calculateATR data
    mfi := calculateMFI data
    fibonacci := calculateFibonacciLevels data
    patterns := PatternRecognitionService.analyzePatterns data
    breakout := breakout
    direction := breakout.direction
    probability := breakout.probability }

/-- Source `analyze(marketData)` from `part_010`: fewer than 50 bars short-circuits
to `return null` (after a `console.error`), otherwise the full indicator /
pattern / fusion pipeline runs. -/
def analyze (rsqrt : ℚ → ℚ) (data : List Bar) : AnalyzeOutcome :=
  if data.length < 50 then AnalyzeOutcome.nullResult
  else AnalyzeOutcome.ok (analyzeBody rsqrt data)

end TechnicalAnalysis

/-! ## Spec-side definitions (for refinement claims) -/

namespace BreakoutSpec

/-- Modelled from the spec (§4.4 steps 2–6): the fusion rule on the five
numeric votes.  Weight table technical 0.25 / momentum 0.20 / volume 0.15 /
pattern 0.25 / fibonacci 0.15; direction thresholds ±0.2; probability
`min(95, |ws|·100)` with floor 5; when a dominant pattern exists the score is
scaled by `1 + (patternConfidence - 50)/100` and reclamped to `[5, 95]`. -/
def specFusion (technical momentum volume pattern fibonacci : ℚ)
    (patternExists : Bool) (patternConfidence : ℚ) : String × ℚ :=
  let weightedSum :=
    technical * 0.25 + momentum * 0.2 + volume * 0.15 + pattern * 0.25 + fibonacci * 0.15
  let direction :=
    if weightedSum > 0.2 then "LONG"
    else if weightedSum < -0.2 then "SHORT" else "NEUTRAL"
  let base := min 95 (|weightedSum| * 100)
  let scale := if patternExists then 1 + (patternConfidence - 50) / 100 else 1
  (direction, max 5 (min 95 (base * scale)))

end BreakoutSpec

/-! ## Concrete inputs used by the claim theorems and witnesses -/

/-- A ten-bar flat series, the concrete short input of the claim. -/
def tenBarSeries : List Bar :=
  List.replicate 10 { opn := 5, high := 5, low := 5, close := 5, volume := 7 }

/-- A flat bar: open = high = low = close = `p`, volume `v`. -/
def flatBar (p v : ℚ) : Bar :=
  { opn := p, high := p, low := p, close := p, volume := v }

/-- Fifty flat zero bars. -/
def zeroSeries50 : List Bar :=
  List.replicate 50 (flatBar 0 0)

/-- A sample breakout-indicator record with a dominant pattern. -/
def sampleInd : TechnicalAnalysis.BreakoutIndicators :=
  { bbUpper := 10, bbLower := 6, macdHistogram := 1, volRatio20Day := 160,
    maTrend := "BULLISH", atrValue := 1, mfiValue := 50, mfiSignal := "NEUTRAL",
    mfiInstitutional := "NEUTRAL", fibLevels := [(0.5, 8)], patternsFound := true,
    dominantType := "BULL_FLAG", dominantConfidence := 80 }

/-- A flat newest-first series: every bar has open = high = low = close = `p`
and the volumes are taken from `vols`. -/
def flatSeries (p : ℚ) (vols : List ℚ) : List Bar :=
  vols.map (flatBar p)

/-! ## Helper lemmas -/

section Lemmas

open TechnicalAnalysis

theorem technicalValue_cases (s : String) :
    technicalValue s = 1 ∨ technicalValue s = -1 ∨ technicalValue s = 0 := by
  unfold technicalValue
  split
  · exact Or.inl rfl
  · split
    · exact Or.inr (Or.inl rfl)
    · exact Or.inr (Or.inr rfl)

theorem momentumValue_cases (s : String) :
    momentumValue s = 1 ∨ momentumValue s = -1 ∨ momentumValue s = 0 := by
  unfold momentumValue
  split
  · exact Or.inl rfl
  · split
    · exact Or.inr (Or.inl rfl)
    · exact Or.inr (Or.inr rfl)

theorem patternValue_cases (s : String) :
    patternValue s = 1 ∨ patternValue s = -1 ∨ patternValue s = 0 := by
  unfold patternValue
  split
  · exact Or.inl rfl
  · split
    · exact Or.inr (Or.inl rfl)
    · exact Or.inr (Or.inr rfl)

theorem volumeValue_cases (s : String) :
    volumeValue s = 0 ∨ volumeValue s = 0.5 ∨ volumeValue s = 1 := by
  unfold volumeValue
  split
  · exact Or.inr (Or.inr rfl)
  · split
    · exact Or.inl rfl
    · exact Or.inr (Or.inl rfl)

theorem fibonacciValue_cases (s : String) :
    fibonacciValue s = 1 ∨ fibonacciValue s = -1 := by
  unfold fibonacciValue
  split
  · exact Or.inl rfl
  · exact Or.inr rfl

theorem technicalValue_bounds (s : String) :
    -1 ≤ technicalValue s ∧ technicalValue s ≤ 1 := by
  rcases technicalValue_cases s with h | h | h <;> rw [h] <;> norm_num

theorem momentumValue_bounds (s : String) :
    -1 ≤ momentumValue s ∧ momentumValue s ≤ 1 := by
  rcases momentumValue_cases s with h | h | h <;> rw [h] <;> norm_num

theorem patternValue_bounds (s : String) :
    -1 ≤ patternValue s ∧ patternValue s ≤ 1 := by
  rcases patternValue_cases s with h | h | h <;> rw [h] <;> norm_num

theorem volumeValue_bounds (s : String) :
    0 ≤ volumeValue s ∧ volumeValue s ≤ 1 := by
  rcases volumeValue_cases s with h | h | h <;> rw [h] <;> norm_num

theorem fibonacciValue_bounds (s : String) :
    -1 ≤ fibonacciValue s ∧ fibonacciValue s ≤ 1 := by
  rcases fibonacciValue_cases s with h | h <;> rw [h] <;> norm_num

theorem breakoutWeightedSum_bounds (currentPrice : ℚ) (ind : BreakoutIndicators) :
    -0.85 ≤ breakoutWeightedSum currentPrice ind ∧
      breakoutWeightedSum currentPrice ind ≤ 1 := by
  obtain ⟨ht1, ht2⟩ :=
    technicalValue_bounds (bbSignalOf currentPrice ind.bbUpper ind.bbLower)
  obtain ⟨hm1, hm2⟩ := momentumValue_bounds (macdSignalOf ind.macdHistogram)
  obtain ⟨hv1, hv2⟩ := volumeValue_bounds (volumeSignalOf ind.volRatio20Day)
  obtain ⟨hp1, hp2⟩ :=
    patternValue_bounds (patternSignalOf ind.patternsFound ind.dominantType ind.maTrend)
  obtain ⟨hf1, hf2⟩ :=
    fibonacciValue_bounds (fibonacciSignalOf currentPrice ind.fibLevels)
  unfold breakoutWeightedSum weightTechnical weightMomentum weightVolume weightPattern
    weightFibonacci
  constructor <;> nlinarith

end Lemmas

section Lemmas2

open TechnicalAnalysis

theorem findNearest_tagged_invariant (acc : NearestLevel)
    (h : acc.type = some "support" ∨ acc.type = some "resistance")
    (levels : List (ℚ × ℚ)) (c : ℚ) :
    (levels.foldl
      (fun nearest kv =>
        let distance := |c - kv.2|
        let better :=
          match nearest.distance with
          | none => true
          | some d => decide (distance < d)
        if better then
          { level := some kv.1
            price := some kv.2
            distance := some distance
            type := some (if c > kv.2 then "support" else "resistance") }
        else nearest) acc).type = some "support" ∨
    (levels.foldl
      (fun nearest kv =>
        let distance := |c - kv.2|
        let better :=
          match nearest.distance with
          | none => true
          | some d => decide (distance < d)
        if better then
          { level := some kv.1
            price := some kv.2
            distance := some distance
            type := some (if c > kv.2 then "support" else "resistance") }
        else nearest) acc).type = some "resistance" := by
  induction levels generalizing acc with
  | nil => exact h
  | cons kv rest ih =>
    simp only [List.foldl_cons]
    apply ih
    by_cases hb : (match acc.distance with
        | none => true
        | some d => decide (|c - kv.2| < d)) = true
    · rw [if_pos hb]
      by_cases hc : c > kv.2
      · exact Or.inl (by simp [hc])
      · exact Or.inr (by simp [hc])
    · rw [if_neg hb]
      exact h

theorem findNearestFibonacciLevel_tagged (c : ℚ) (levels : List (ℚ × ℚ))
    (h : levels ≠ []) :
    (findNearestFibonacciLevel c levels).type = some "support" ∨
      (findNearestFibonacciLevel c levels).type = some "resistance" := by
  unfold findNearestFibonacciLevel
  cases levels with
  | nil => exact absurd rfl h
  | cons kv rest =>
    simp only [List.foldl_cons]
    apply findNearest_tagged_invariant
    by_cases hc : c > kv.2
    · exact Or.inl (by simp [hc])
    · exact Or.inr (by simp [hc])

end Lemmas2

section Lemmas3

open TechnicalAnalysis

theorem findNearest_const_stay (c : ℚ) (acc : NearestLevel)
    (hd : acc.distance = some 0) (ks : List ℚ) :
    ((ks.map (fun k => (k, c))).foldl
      (fun nearest kv =>
        let distance := |c - kv.2|
        let better :=
          match nearest.distance with
          | none => true
          | some d => decide (distance < d)
        if better then
          { level := some kv.1
            price := some kv.2
            distance := some distance
            type := some (if c > kv.2 then "support" else "resistance") }
        else nearest) acc) = acc := by
  induction ks with
  | nil => rfl
  | cons k rest ih =>
    simp only [List.map_cons, List.foldl_cons]
    rw [show (match acc.distance with
        | none => true
        | some d => decide (|c - c| < d)) = false by rw [hd]; simp]
    simp only [Bool.false_eq_true, if_false]
    exact ih

theorem findNearestFibonacciLevel_const (c : ℚ) (ks : List ℚ) (h : ks ≠ []) :
    (findNearestFibonacciLevel c (ks.map (fun k => (k, c)))).type = some "resistance" := by
  unfold findNearestFibonacciLevel
  cases ks with
  | nil => exact absurd rfl h
  | cons k rest =>
    simp only [List.map_cons, List.foldl_cons, if_true, sub_self, abs_zero, gt_iff_lt,
      lt_irrefl, if_false]
    rw [findNearest_const_stay c _ rfl]

end Lemmas3

section Lemmas4

open TechnicalAnalysis

theorem gainFold_mono (l : List ℚ) : ∀ acc : ℚ,
    acc ≤ l.foldl (fun g d => if d ≥ 0 then g + d else g) acc := by
  induction l with
  | nil => intro acc; exact le_refl acc
  | cons d ds ih =>
    intro acc
    simp only [List.foldl_cons]
    refine le_trans ?_ (ih _)
    by_cases hd : d ≥ 0
    · rw [if_pos hd]; linarith
    · rw [if_neg hd]

theorem lossFold_mono (l : List ℚ) : ∀ acc : ℚ,
    acc ≤ l.foldl (fun s d => if d ≥ 0 then s else s - d) acc := by
  induction l with
  | nil => intro acc; exact le_refl acc
  | cons d ds ih =>
    intro acc
    simp only [List.foldl_cons]
    refine le_trans ?_ (ih _)
    by_cases hd : d ≥ 0
    · rw [if_pos hd]
    · rw [if_neg hd]; push_neg at hd; linarith

theorem lossFold_eq_zero_iff (l : List ℚ) :
    l.foldl (fun s d => if d ≥ 0 then s else s - d) 0 = 0 ↔ ∀ d ∈ l, 0 ≤ d := by
  induction l with
  | nil => simp
  | cons d ds ih =>
    simp only [List.foldl_cons, List.mem_cons]
    by_cases hd : d ≥ 0
    · rw [if_pos hd]
      rw [ih]
      constructor
      · intro hall x hx
        rcases hx with rfl | hx
        · exact hd
        · exact hall x hx
      · intro hall x hx
        exact hall x (Or.inr hx)
    · rw [if_neg hd]
      push_neg at hd
      have hpos : (0 : ℚ) - d > 0 := by linarith
      have := lossFold_mono ds (0 - d)
      constructor
      · intro hzero
        exfalso
        linarith
      · intro hall
        exact absurd (hall d (Or.inl rfl)) (by linarith)

end Lemmas4

/-- Claim C6: for every series with at least `rsiPeriod` (14) bars,
`calculateRSI` returns a value in `[0, 100]`, and it returns exactly `100`
if and only if every close-to-close change examined in the initial window
(`data[i].close - data[i-1].close` for `i = 1 .. 13`) is non-negative — the
guarded zero-average-loss case. -/
theorem claim_C6 (data : List Bar) (h : TechnicalAnalysis.rsiPeriod ≤ data.length) :
    (0 ≤ TechnicalAnalysis.calculateRSI data ∧ TechnicalAnalysis.calculateRSI data ≤ 100) ∧
      (TechnicalAnalysis.calculateRSI data = 100 ↔
        ∀ d ∈ TechnicalAnalysis.rsiDiffs data, 0 ≤ d) := by
  unfold TechnicalAnalysis.calculateRSI
  set diffs := TechnicalAnalysis.rsiDiffs data with hdiffs
  set G := diffs.foldl (fun g d => if d ≥ 0 then g + d else g) 0 with hG
  set L := diffs.foldl (fun s d => if d ≥ 0 then s else s - d) 0 with hL
  have hG0 : 0 ≤ G := gainFold_mono diffs 0
  have hL0 : 0 ≤ L := lossFold_mono diffs 0
  have hLiff : L = 0 ↔ ∀ d ∈ diffs, 0 ≤ d := lossFold_eq_zero_iff diffs
  simp only []
  by_cases hz : L / (TechnicalAnalysis.rsiPeriod : ℚ) = 0
  · rw [if_pos hz]
    have hLz : L = 0 := by
      have : (TechnicalAnalysis.rsiPeriod : ℚ) ≠ 0 := by norm_num [TechnicalAnalysis.rsiPeriod]
      field_simp at hz
      exact hz
    refine ⟨⟨by norm_num, by norm_num⟩, ?_⟩
    simp only [true_iff]
    exact hLiff.mp hLz
  · rw [if_neg hz]
    have hLpos : 0 < L := by
      rcases lt_or_eq_of_le hL0 with hlt | heq
      · exact hlt
      · exact absurd (by rw [← heq]; norm_num) hz
    have hrs : 0 ≤ G / (TechnicalAnalysis.rsiPeriod : ℚ) / (L / (TechnicalAnalysis.rsiPeriod : ℚ)) := by
      apply div_nonneg
      · apply div_nonneg hG0; norm_num [TechnicalAnalysis.rsiPeriod]
      · apply div_nonneg hL0; norm_num [TechnicalAnalysis.rsiPeriod]
    have hden : (0 : ℚ) < 1 + G / (TechnicalAnalysis.rsiPeriod : ℚ) / (L / (TechnicalAnalysis.rsiPeriod : ℚ)) := by
      linarith
    have hfrac_pos : 0 < 100 / (1 + G / (TechnicalAnalysis.rsiPeriod : ℚ) / (L / (TechnicalAnalysis.rsiPeriod : ℚ))) :=
      div_pos (by norm_num) hden
    have hfrac_le : 100 / (1 + G / (TechnicalAnalysis.rsiPeriod : ℚ) / (L / (TechnicalAnalysis.rsiPeriod : ℚ))) ≤ 100 := by
      apply div_le_of_le_mul₀ (le_of_lt hden) (by norm_num)
      nlinarith
    refine ⟨⟨by linarith, by linarith⟩, ?_⟩
    constructor
    · intro h100
      exfalso
      have : 100 / (1 + G / (TechnicalAnalysis.rsiPeriod : ℚ) / (L / (TechnicalAnalysis.rsiPeriod : ℚ))) = 0 := by
        linarith
      linarith
    · intro hall
      exact absurd (hLiff.mpr hall) (ne_of_gt hLpos)

section Lemmas5

theorem foldl_add_nonneg (l : List ℚ) : ∀ acc : ℚ, 0 ≤ acc →
    (∀ x ∈ l, 0 ≤ x) → 0 ≤ l.foldl (· + ·) acc := by
  induction l with
  | nil => intro acc h _; exact h
  | cons x xs ih =>
    intro acc hacc hall
    simp only [List.foldl_cons]
    exact ih (acc + x) (by have := hall x (List.mem_cons_self x xs); linarith)
      (fun y hy => hall y (List.mem_cons_of_mem x hy))

theorem bollinger_variance_nonneg (slice : List ℚ) (sma : ℚ) :
    0 ≤ (slice.map (fun price => (price - sma) ^ 2)).foldl (· + ·) 0 / (slice.length : ℚ) := by
  apply div_nonneg
  · apply foldl_add_nonneg _ 0 le_rfl
    intro x hx
    rcases List.mem_map.mp hx with ⟨p, _, rfl⟩
    positivity
  · positivity

theorem bollinger_band_invariant (rsqrt : ℚ → ℚ)
    (hs : ∀ x : ℚ, 0 ≤ x → 0 ≤ rsqrt x)
    (data : List Bar) (period : ℕ) (multiplier : ℚ) (hm : 0 ≤ multiplier) :
    ∀ b ∈ BollingerBands.calculate rsqrt data period multiplier,
      b.lower ≤ b.middle ∧ b.middle ≤ b.upper := by
  unfold BollingerBands.calculate
  dsimp only
  generalize (List.range ((data.map Bar.close).length + 1 - period)) = idxs
  have main : ∀ (idxs : List ℕ) (bands0 : List BollingerBands.Band),
      (∀ b ∈ bands0, b.lower ≤ b.middle ∧ b.middle ≤ b.upper) →
      ∀ b ∈ idxs.foldl
        (fun bands j =>
          let slice := ((data.map Bar.close).drop j).take period
          let sma := BollingerBands.calculateSMA slice
          let stdDev := BollingerBands.calculateStandardDeviation rsqrt slice sma
          let bandwidth := multiplier * stdDev * 2 / sma * 100
          let recentBandwidths := (takeLast bands 20).map BollingerBands.Band.bandwidth
          let averageBandwidth :=
            if recentBandwidths.length > 0 then BollingerBands.calculateSMA recentBandwidths
            else bandwidth
          bands ++ [{ middle := sma
                      upper := sma + multiplier * stdDev
                      lower := sma - multiplier * stdDev
                      bandwidth := bandwidth
                      squeeze :=
                        { isSqueezing := decide (bandwidth < averageBandwidth * 0.5)
                          bandwidthPercentile := bandwidth / averageBandwidth * 100
                          averageBandwidth := averageBandwidth
                          currentBandwidth := bandwidth } }]) bands0,
        b.lower ≤ b.middle ∧ b.middle ≤ b.upper := by
    intro idxs
    induction idxs with
    | nil => intro bands0 h0 b hb; exact h0 b hb
    | cons j js ih =>
      intro bands0 h0 b hb
      simp only [List.foldl_cons] at hb
      refine ih _ ?_ b hb
      intro b2 hb2
      rcases List.mem_append.mp hb2 with hmem | hmem
      · exact h0 b2 hmem
      · have hσ : 0 ≤ BollingerBands.calculateStandardDeviation rsqrt
            (((data.map Bar.close).drop j).take period)
            (BollingerBands.calculateSMA (((data.map Bar.close).drop j).take period)) := by
          unfold BollingerBands.calculateStandardDeviation
          exact hs _ (bollinger_variance_nonneg _ _)
        have hms : 0 ≤ multiplier * BollingerBands.calculateStandardDeviation rsqrt
            (((data.map Bar.close).drop j).take period)
            (BollingerBands.calculateSMA (((data.map Bar.close).drop j).take period)) :=
          mul_nonneg hm hσ
        rcases List.mem_singleton.mp hmem with rfl
        constructor
        · simp only
          linarith
        · simp only
          linarith
  exact main idxs [] (by intro b hb; cases hb)

end Lemmas5

/-- Claim C7: every band produced by `BollingerBands.calculate` (middle =
window SMA, upper/lower = middle ± multiplier·population standard deviation)
satisfies `lower ≤ middle ≤ upper`, for any non-negative multiplier.
`Math.sqrt` is modelled as an abstract `rsqrt` that is non-negative on
non-negative inputs. -/
theorem claim_C7 (rsqrt : ℚ → ℚ) (hs : ∀ x : ℚ, 0 ≤ x → 0 ≤ rsqrt x)
    (data : List Bar) (period : ℕ) (multiplier : ℚ) (hm : 0 ≤ multiplier) :
    ∀ b ∈ BollingerBands.calculate rsqrt data period multiplier,
      b.lower ≤ b.middle ∧ b.middle ≤ b.upper :=
  bollinger_band_invariant rsqrt hs data period multiplier hm

/-- Claim C8: pattern analysis never throws — with fewer than
`minPatternBars` (5) bars `analyzePatterns` returns the not-detected result
(empty pattern list, `summary.detected = false`) as a normal value, and when
head-and-shoulders detection finds fewer than three peaks
`detectHeadAndShoulders` returns `detected := false`; both are ordinary
returns of the total embedded functions, not exceptions. -/
theorem claim_C8 :
    (∀ data : List Bar, data.length < PatternRecognitionService.minPatternBars →
      PatternRecognitionService.analyzePatterns data =
        { patterns := [], summary := { detected := false } }) ∧
    (∀ data : List Bar,
      (PatternRecognitionService.findSignificantPeaks
        (data.take (min PatternRecognitionService.maxPatternBars data.length))).length < 3 →
      PatternRecognitionService.detectHeadAndShoulders data = { detected := false }) := by
  constructor
  · intro data h
    unfold PatternRecognitionService.analyzePatterns
    rw [if_pos h]
  · intro data h
    unfold PatternRecognitionService.detectHeadAndShoulders
    dsimp only
    rw [if_pos h]

theorem fusionScale_eq (found : Bool) (conf : ℚ) (h : found = true → 0 < conf) :
    (if found then 1 + (conf - 50) / 100 else 1) =
      1 + (if TechnicalAnalysis.patternConfidenceOf found conf > 0
        then (TechnicalAnalysis.patternConfidenceOf found conf - 50) / 100 else 0) := by
  cases found with
  | false => simp [TechnicalAnalysis.patternConfidenceOf]
  | true => simp [TechnicalAnalysis.patternConfidenceOf, h rfl]

/-- Claim C2: `analyzeBreakout` computes the fused score exactly as the spec
states it — the five directional votes (Bollinger, MACD, volume, pattern,
fibonacci, with 0.5 for moderate volume) combined with weights
0.25/0.20/0.15/0.25/0.15 (which sum to 1), direction LONG iff the weighted
sum > 0.2 and SHORT iff < −0.2 else NEUTRAL, probability
`min(95, |ws|·100)` with floor 5, and — when a dominant pattern exists
(which always carries positive confidence, the hypothesis) — the score
scaled by `1 + (patternConfidence − 50)/100` and reclamped to `[5, 95]`. -/
theorem claim_C2 (data : List Bar) (ind : TechnicalAnalysis.BreakoutIndicators)
    (h : ind.patternsFound = true → 0 < ind.dominantConfidence) :
    TechnicalAnalysis.weightTechnical + TechnicalAnalysis.weightMomentum +
        TechnicalAnalysis.weightVolume + TechnicalAnalysis.weightPattern +
        TechnicalAnalysis.weightFibonacci = 1 ∧
    ((TechnicalAnalysis.analyzeBreakout data ind).direction,
        (TechnicalAnalysis.analyzeBreakout data ind).probability) =
      BreakoutSpec.specFusion
        (TechnicalAnalysis.technicalValue
          (TechnicalAnalysis.bbSignalOf ((data.map Bar.close).headD 0) ind.bbUpper ind.bbLower))
        (TechnicalAnalysis.momentumValue (TechnicalAnalysis.macdSignalOf ind.macdHistogram))
        (TechnicalAnalysis.volumeValue (TechnicalAnalysis.volumeSignalOf ind.volRatio20Day))
        (TechnicalAnalysis.patternValue
          (TechnicalAnalysis.patternSignalOf ind.patternsFound ind.dominantType ind.maTrend))
        (TechnicalAnalysis.fibonacciValue
          (TechnicalAnalysis.fibonacciSignalOf ((data.map Bar.close).headD 0) ind.fibLevels))
        ind.patternsFound ind.dominantConfidence := by
  constructor
  · norm_num [TechnicalAnalysis.weightTechnical, TechnicalAnalysis.weightMomentum,
      TechnicalAnalysis.weightVolume, TechnicalAnalysis.weightPattern,
      TechnicalAnalysis.weightFibonacci]
  · unfold TechnicalAnalysis.analyzeBreakout BreakoutSpec.specFusion
    dsimp only
    rw [fusionScale_eq ind.patternsFound ind.dominantConfidence h]
    rfl

/-- Claim C10: the volume vote is only 0, 0.5 or 1 (never negative), the
fibonacci vote is only +1 or −1 (never 0; the nearest level of a non-empty
level table is always tagged either support or resistance), and consequently
the fused weighted sum always lies in `[-0.85, 1]`, so a full-strength short
score of −1 is unreachable. -/
theorem claim_C10 :
    (∀ ind : TechnicalAnalysis.BreakoutIndicators,
      TechnicalAnalysis.volumeValue (TechnicalAnalysis.volumeSignalOf ind.volRatio20Day) = 0 ∨
      TechnicalAnalysis.volumeValue (TechnicalAnalysis.volumeSignalOf ind.volRatio20Day) = 0.5 ∨
      TechnicalAnalysis.volumeValue (TechnicalAnalysis.volumeSignalOf ind.volRatio20Day) = 1) ∧
    (∀ (c : ℚ) (ind : TechnicalAnalysis.BreakoutIndicators),
      TechnicalAnalysis.fibonacciValue (TechnicalAnalysis.fibonacciSignalOf c ind.fibLevels) = 1 ∨
      TechnicalAnalysis.fibonacciValue (TechnicalAnalysis.fibonacciSignalOf c ind.fibLevels) = -1) ∧
    (∀ (c : ℚ) (levels : List (ℚ × ℚ)), levels ≠ [] →
      (TechnicalAnalysis.findNearestFibonacciLevel c levels).type = some "support" ∨
      (TechnicalAnalysis.findNearestFibonacciLevel c levels).type = some "resistance") ∧
    (∀ (c : ℚ) (ind : TechnicalAnalysis.BreakoutIndicators),
      -0.85 ≤ TechnicalAnalysis.breakoutWeightedSum c ind ∧
        TechnicalAnalysis.breakoutWeightedSum c ind ≤ 1) := by
  refine ⟨?_, ?_, ?_, ?_⟩
  · intro ind
    exact volumeValue_cases _
  · intro c ind
    exact fibonacciValue_cases _
  · intro c levels h
    exact findNearestFibonacciLevel_tagged c levels h
  · intro c ind
    exact breakoutWeightedSum_bounds c ind

section Lemmas6

open TechnicalAnalysis

theorem jsRound_nonneg (q : ℚ) (h : 0 ≤ q) : 0 ≤ jsRound q := by
  unfold jsRound
  rw [Int.le_floor]
  push_cast
  linarith

theorem jsRound_le_95 (q : ℚ) (h : q ≤ 95) : jsRound q ≤ 95 := by
  unfold jsRound
  have : jsRound q < 96 := by
    unfold jsRound
    rw [Int.floor_lt]
    push_cast
    linarith
  unfold jsRound at this
  omega

theorem analyzeBreakout_domain (data : List Bar) (ind : BreakoutIndicators)
    (hf : ind.patternsFound = false) :
    ((analyzeBreakout data ind).direction = "LONG" ∨
      (analyzeBreakout data ind).direction = "SHORT" ∨
      (analyzeBreakout data ind).direction = "NEUTRAL") ∧
    5 ≤ (analyzeBreakout data ind).probability ∧
    (analyzeBreakout data ind).probability ≤ 95 ∧
    0 ≤ (analyzeBreakout data ind).confidence ∧
    (analyzeBreakout data ind).confidence ≤ 95 := by
  unfold analyzeBreakout
  dsimp only
  rw [hf]
  simp only [patternConfidenceOf, if_false, Bool.false_eq_true, lt_irrefl, mul_one, add_zero]
  have h0 : (0 : ℚ) ≤ min 95 (|breakoutWeightedSum ((data.map Bar.close).headD 0) ind| * 100) :=
    le_min (by norm_num) (by positivity)
  have h95 : min 95 (|breakoutWeightedSum ((data.map Bar.close).headD 0) ind| * 100) ≤ 95 :=
    min_le_left _ _
  refine ⟨?_, ?_, ?_, ?_, ?_⟩
  · by_cases h1 : breakoutWeightedSum ((data.map Bar.close).headD 0) ind > 0.2
    · rw [if_pos h1]; exact Or.inl rfl
    · rw [if_neg h1]
      by_cases h2 : breakoutWeightedSum ((data.map Bar.close).headD 0) ind < -0.2
      · rw [if_pos h2]; exact Or.inr (Or.inl rfl)
      · rw [if_neg h2]; exact Or.inr (Or.inr rfl)
  · exact le_max_left _ _
  · exact max_le (by norm_num) (le_trans (min_le_left _ _) (by norm_num))
  · exact jsRound_nonneg _ h0
  · exact jsRound_le_95 _ h95

end Lemmas6


/-- Claim C3, counterexample: on a series of 10 bars `analyze` evaluates to
the `null` sentinel (`AnalyzeOutcome.nullResult`, the model of `return null`
after the `console.error` log).  No error value is produced — the outcome
type has no exception alternative because the guard path returns `null` —
and no `InsufficientDataError` class exists in `CustomErrors.js` (which
defines `MarketAnalysisError`, `APIError`, `ValidationError` and
`TechnicalAnalysisError` only), so the claimed raising behaviour does not
occur. -/
theorem claim_C3_counterexample :
    TechnicalAnalysis.analyze (fun _ => 0) tenBarSeries =
      TechnicalAnalysis.AnalyzeOutcome.nullResult := by
  rfl

/-- Claim C3 (amended): for every series with fewer than 50 bars, `analyze`
fails fast by returning the defined `null` sentinel — not by raising an
`InsufficientDataError` (no such class exists in the repository) and not by
crashing. -/
theorem claim_C3 (rsqrt : ℚ → ℚ) (data : List Bar) (h : data.length < 50) :
    TechnicalAnalysis.analyze rsqrt data = TechnicalAnalysis.AnalyzeOutcome.nullResult := by
  unfold TechnicalAnalysis.analyze
  rw [if_pos h]

/-- Claim C3, witness. -/
theorem claim_C3_witness :
    tenBarSeries.length < 50 ∧
      TechnicalAnalysis.analyze (fun q => q) tenBarSeries =
        TechnicalAnalysis.AnalyzeOutcome.nullResult :=
  ⟨by decide, claim_C3 (fun q => q) tenBarSeries (by decide)⟩

/-- Claim C4, counterexample: the object returned by `analyzeBreakout` in
`part_010` has keys `direction`, `probability`, `confidence`, `signals`,
`details` — no `timeframe` key is present in the fusion result, so the
claimed `timeframe ∈ {SHORT, MEDIUM, LONG}` cannot hold for any input. -/
theorem claim_C4_counterexample :
    "timeframe" ∉ TechnicalAnalysis.analyzeBreakoutResultKeys ∧
      "direction" ∈ TechnicalAnalysis.analyzeBreakoutResultKeys ∧
      "probability" ∈ TechnicalAnalysis.analyzeBreakoutResultKeys ∧
      "confidence" ∈ TechnicalAnalysis.analyzeBreakoutResultKeys := by
  constructor
  · decide
  · refine ⟨?_, ?_, ?_⟩ <;> decide

/-- Claim C4 (amended): for every series of at least 50 bars the pipeline
returns a result whose fused signal satisfies
`direction ∈ {LONG, SHORT, NEUTRAL}`, `0 ≤ probability ≤ 100` (in fact
`[5, 95]`) and `0 ≤ confidence ≤ 100` (in fact `[0, 95]`, since the
pattern-service summary never defines `patternsFound` and the confidence
adjustment is therefore never applied); no `timeframe` field exists in the
result. -/
theorem claim_C4 (rsqrt : ℚ → ℚ) (data : List Bar) (h : 50 ≤ data.length) :
    TechnicalAnalysis.analyze rsqrt data =
      TechnicalAnalysis.AnalyzeOutcome.ok (TechnicalAnalysis.analyzeBody rsqrt data) ∧
    ((TechnicalAnalysis.analyzeBody rsqrt data).breakout.direction = "LONG" ∨
      (TechnicalAnalysis.analyzeBody rsqrt data).breakout.direction = "SHORT" ∨
      (TechnicalAnalysis.analyzeBody rsqrt data).breakout.direction = "NEUTRAL") ∧
    (0 ≤ (TechnicalAnalysis.analyzeBody rsqrt data).breakout.probability ∧
      (TechnicalAnalysis.analyzeBody rsqrt data).breakout.probability ≤ 100) ∧
    (0 ≤ (TechnicalAnalysis.analyzeBody rsqrt data).breakout.confidence ∧
      (TechnicalAnalysis.analyzeBody rsqrt data).breakout.confidence ≤ 100) := by
  have hbody : (TechnicalAnalysis.analyzeBody rsqrt data).breakout =
      TechnicalAnalysis.analyzeBreakout data
        (TechnicalAnalysis.assembleBreakoutIndicators rsqrt data) := rfl
  have hdom := analyzeBreakout_domain data
    (TechnicalAnalysis.assembleBreakoutIndicators rsqrt data) rfl
  refine ⟨?_, ?_, ?_, ?_⟩
  · unfold TechnicalAnalysis.analyze
    rw [if_neg (by omega)]
  · rw [hbody]; exact hdom.1
  · rw [hbody]
    exact ⟨by linarith [hdom.2.1], by linarith [hdom.2.2.1]⟩
  · rw [hbody]
    exact ⟨hdom.2.2.2.1, by linarith [hdom.2.2.2.2]⟩

/-- Claim C1 (code bug): `calculateEMA` does not equal the reference EMA.
On the 2-bar newest-first close series `[0, 2]` with `period = 2` the
reference (`specEMA`: seed with the SMA of the oldest 2 values, no remaining
bars) is `1`, but the code seeds with the SMA of the *newest* `period`
closes and then re-applies the recurrence over that same window walking from
index `period-1` down to 0, returning `5/9`.  Likewise `calculateEMAValues`
walks `i = period .. length-1`, i.e. chronologically backwards over the
newest-first array: with `period = 1` on `[0, 1, 2]` its newest entry (head)
is `2` — the *oldest* price — while the reference EMA at the newest bar is
`0`. -/
theorem claim_C1 :
    TechnicalAnalysis.calculateEMA
        [{ opn := 0, high := 0, low := 0, close := 0, volume := 0 },
         { opn := 2, high := 2, low := 2, close := 2, volume := 0 }] 2 = 5 / 9 ∧
      TechnicalAnalysis.specEMA [0, 2] 2 = 1 ∧
      (5 / 9 : ℚ) ≠ 1 ∧
      (TechnicalAnalysis.calculateEMAValues [0, 1, 2] 1).head? = some 2 ∧
      TechnicalAnalysis.specEMA [0, 1, 2] 1 = 0 ∧
      (2 : ℚ) ≠ 0 := by
  refine ⟨?_, ?_, by norm_num, ?_, ?_, by norm_num⟩
  · unfold TechnicalAnalysis.calculateEMA TechnicalAnalysis.calculateSMA
      TechnicalAnalysis.emaStep
    norm_num
  · unfold TechnicalAnalysis.specEMA TechnicalAnalysis.emaStep
    norm_num
  · unfold TechnicalAnalysis.calculateEMAValues TechnicalAnalysis.emaStep
    norm_num
  · unfold TechnicalAnalysis.specEMA TechnicalAnalysis.emaStep
    norm_num




/-- Claim C7, witness. -/
theorem claim_C7_witness :
    (∀ x : ℚ, 0 ≤ x → 0 ≤ (fun _ : ℚ => (0 : ℚ)) x) ∧ (0 ≤ (2 : ℚ)) ∧
      ∀ b ∈ BollingerBands.calculate (fun _ : ℚ => (0 : ℚ)) [flatBar 4 1] 1 2,
        b.lower ≤ b.middle ∧ b.middle ≤ b.upper :=
  ⟨fun _ _ => le_rfl, by norm_num,
    claim_C7 (fun _ : ℚ => (0 : ℚ)) (fun _ _ => le_rfl) [flatBar 4 1] 1 2 (by norm_num)⟩

/-- Claim C6, witness. -/
theorem claim_C6_witness :
    TechnicalAnalysis.rsiPeriod ≤ (List.replicate 14 (flatBar 3 2)).length ∧
      ((0 ≤ TechnicalAnalysis.calculateRSI (List.replicate 14 (flatBar 3 2)) ∧
        TechnicalAnalysis.calculateRSI (List.replicate 14 (flatBar 3 2)) ≤ 100) ∧
      (TechnicalAnalysis.calculateRSI (List.replicate 14 (flatBar 3 2)) = 100 ↔
        ∀ d ∈ TechnicalAnalysis.rsiDiffs (List.replicate 14 (flatBar 3 2)), 0 ≤ d)) :=
  ⟨by decide, claim_C6 _ (by decide)⟩

/-- Claim C8, witness. -/
theorem claim_C8_witness :
    ((List.replicate 3 (flatBar 1 9)).length < PatternRecognitionService.minPatternBars ∧
      PatternRecognitionService.analyzePatterns (List.replicate 3 (flatBar 1 9)) =
        { patterns := [], summary := { detected := false } }) ∧
    ((PatternRecognitionService.findSignificantPeaks
        (([] : List Bar).take (min PatternRecognitionService.maxPatternBars
          ([] : List Bar).length))).length < 3 ∧
      PatternRecognitionService.detectHeadAndShoulders ([] : List Bar) = { detected := false }) :=
  ⟨⟨by decide, claim_C8.1 _ (by decide)⟩, ⟨by decide, claim_C8.2 _ (by decide)⟩⟩

/-- Claim C4, witness. -/
theorem claim_C4_witness :
    50 ≤ zeroSeries50.length ∧
      (TechnicalAnalysis.analyze (fun _ : ℚ => (0 : ℚ)) zeroSeries50 =
        TechnicalAnalysis.AnalyzeOutcome.ok
          (TechnicalAnalysis.analyzeBody (fun _ : ℚ => (0 : ℚ)) zeroSeries50) ∧
      ((TechnicalAnalysis.analyzeBody (fun _ : ℚ => (0 : ℚ))
          zeroSeries50).breakout.direction = "LONG" ∨
        (TechnicalAnalysis.analyzeBody (fun _ : ℚ => (0 : ℚ))
          zeroSeries50).breakout.direction = "SHORT" ∨
        (TechnicalAnalysis.analyzeBody (fun _ : ℚ => (0 : ℚ))
          zeroSeries50).breakout.direction = "NEUTRAL") ∧
      (0 ≤ (TechnicalAnalysis.analyzeBody (fun _ : ℚ => (0 : ℚ))
          zeroSeries50).breakout.probability ∧
        (TechnicalAnalysis.analyzeBody (fun _ : ℚ => (0 : ℚ))
          zeroSeries50).breakout.probability ≤ 100) ∧
      (0 ≤ (TechnicalAnalysis.analyzeBody (fun _ : ℚ => (0 : ℚ))
          zeroSeries50).breakout.confidence ∧
        (TechnicalAnalysis.analyzeBody (fun _ : ℚ => (0 : ℚ))
          zeroSeries50).breakout.confidence ≤ 100)) :=
  ⟨by decide, claim_C4 (fun _ : ℚ => (0 : ℚ)) zeroSeries50 (by decide)⟩

/-- Claim C2, witness. -/
theorem claim_C2_witness :
    (sampleInd.patternsFound = true → 0 < sampleInd.dominantConfidence) ∧
    (TechnicalAnalysis.weightTechnical + TechnicalAnalysis.weightMomentum +
        TechnicalAnalysis.weightVolume + TechnicalAnalysis.weightPattern +
        TechnicalAnalysis.weightFibonacci = 1 ∧
      ((TechnicalAnalysis.analyzeBreakout [flatBar 11 5] sampleInd).direction,
        (TechnicalAnalysis.analyzeBreakout [flatBar 11 5] sampleInd).probability) =
        BreakoutSpec.specFusion
          (TechnicalAnalysis.technicalValue (TechnicalAnalysis.bbSignalOf
            ((([flatBar 11 5] : List Bar).map Bar.close).headD 0) sampleInd.bbUpper
            sampleInd.bbLower))
          (TechnicalAnalysis.momentumValue
            (TechnicalAnalysis.macdSignalOf sampleInd.macdHistogram))
          (TechnicalAnalysis.volumeValue
            (TechnicalAnalysis.volumeSignalOf sampleInd.volRatio20Day))
          (TechnicalAnalysis.patternValue (TechnicalAnalysis.patternSignalOf
            sampleInd.patternsFound sampleInd.dominantType sampleInd.maTrend))
          (TechnicalAnalysis.fibonacciValue (TechnicalAnalysis.fibonacciSignalOf
            ((([flatBar 11 5] : List Bar).map Bar.close).headD 0) sampleInd.fibLevels))
          sampleInd.patternsFound sampleInd.dominantConfidence) :=
  ⟨fun _ => by norm_num [sampleInd],
    claim_C2 [flatBar 11 5] sampleInd (fun _ => by norm_num [sampleInd])⟩

/-- Claim C10, witness. -/
theorem claim_C10_witness :
    ([((0.5 : ℚ), (3 : ℚ))] ≠ ([] : List (ℚ × ℚ))) ∧
      ((TechnicalAnalysis.findNearestFibonacciLevel 7 [((0.5 : ℚ), (3 : ℚ))]).type =
          some "support" ∨
        (TechnicalAnalysis.findNearestFibonacciLevel 7 [((0.5 : ℚ), (3 : ℚ))]).type =
          some "resistance") :=
  ⟨by simp, claim_C10.2.2.1 7 [((0.5 : ℚ), (3 : ℚ))] (by simp)⟩

section Lemmas7

open TechnicalAnalysis

theorem pairFold_snd_head {α β : Type} (f : α → β → α) (l : List β) :
    ∀ (e : α) (out : List α), out.head? = some e →
      ((l.foldl (fun acc price => (f acc.1 price, f acc.1 price :: acc.2)) (e, out)).2).head? =
        some (l.foldl f e) := by
  induction l with
  | nil => intro e out h; exact h
  | cons x xs ih =>
    intro e out h
    simp only [List.foldl_cons]
    exact ih (f e x) (f e x :: out) rfl

theorem pairFold_snd_length {α β : Type} (f : α → β → α) (l : List β) :
    ∀ (e : α) (out : List α),
      ((l.foldl (fun acc price => (f acc.1 price, f acc.1 price :: acc.2)) (e, out)).2).length =
        out.length + l.length := by
  induction l with
  | nil => intro e out; simp
  | cons x xs ih =>
    intro e out
    simp only [List.foldl_cons]
    rw [ih (f e x) (f e x :: out)]
    simp
    omega

theorem emaStepOpt_price_none (m : ℚ) (e : Option ℚ) : emaStepOpt m e none = none := by
  cases e <;> rfl

theorem foldl_emaStepOpt_last_none (m : ℚ) (l : List (Option ℚ))
    (h : l.getLast? = some none) (e : Option ℚ) :
    l.foldl (emaStepOpt m) e = none := by
  have hne : l ≠ [] := by
    intro hc
    rw [hc] at h
    exact Option.noConfusion h
  have hdecomp := List.dropLast_append_getLast? none h
  rw [← hdecomp, List.foldl_append]
  simp only [List.foldl_cons, List.foldl_nil]
  exact emaStepOpt_price_none m _

theorem calculateEMAValues_length (prices : List ℚ) (period : ℕ) :
    (calculateEMAValues prices period).length = 1 + (prices.length - period) := by
  unfold calculateEMAValues
  dsimp only
  rw [pairFold_snd_length (emaStep (2 / ((period : ℚ) + 1))) (prices.drop period)]
  simp

theorem calculateEMAValuesOpt_head (prices : List (Option ℚ)) (period : ℕ) :
    (calculateEMAValuesOpt prices period).head? =
      some ((prices.drop period).foldl (emaStepOpt (2 / ((period : ℚ) + 1)))
        ((optSum (prices.take period)).map (fun s => s / (period : ℚ)))) := by
  unfold calculateEMAValuesOpt
  dsimp only
  exact pairFold_snd_head _ _ _ _ rfl

theorem getLast?_drop_of_lt {α : Type} (l : List α) (n : ℕ) (h : n < l.length) :
    (l.drop n).getLast? = l.getLast? := by
  rw [List.getLast?_eq_getElem?, List.getLast?_eq_getElem?, List.getElem?_drop,
    List.length_drop]
  congr 1
  omega

theorem macdLineOf_length (prices : List ℚ) (h : 50 ≤ prices.length) :
    (macdLineOf prices).length = prices.length - 11 := by
  unfold macdLineOf
  dsimp only
  rw [List.length_map, List.length_range, calculateEMAValues_length]
  unfold macdFast
  omega

theorem macdLineOf_getLast_none (prices : List ℚ) (h : 50 ≤ prices.length) :
    (macdLineOf prices).getLast? = some none := by
  have hlen := macdLineOf_length prices h
  rw [List.getLast?_eq_getElem?, hlen]
  unfold macdLineOf
  dsimp only
  have hflen : (calculateEMAValues prices macdFast).length = prices.length - 11 := by
    rw [calculateEMAValues_length]
    unfold macdFast
    omega
  rw [List.getElem?_map]
  rw [List.getElem?_range (by rw [hflen]; omega)]
  simp only [Option.map_some', List.get?_eq_getElem?]
  have hslow : (calculateEMAValues prices macdSlow)[prices.length - 11 - 1]? = none := by
    apply List.getElem?_eq_none
    rw [calculateEMAValues_length]
    unfold macdSlow
    omega
  rw [hslow]
  rfl

theorem signalLineOf_head_none (prices : List ℚ) (h : 50 ≤ prices.length) :
    (signalLineOf prices).head? = some none := by
  unfold signalLineOf
  rw [calculateEMAValuesOpt_head]
  congr 1
  apply foldl_emaStepOpt_last_none
  rw [getLast?_drop_of_lt]
  · exact macdLineOf_getLast_none prices h
  · rw [macdLineOf_length prices h]
    unfold macdSignalPeriod
    omega

theorem histogramOf_head_none (prices : List ℚ) (h : 50 ≤ prices.length) :
    (histogramOf prices).head? = some none := by
  unfold histogramOf
  rw [List.head?_eq_getElem?, List.getElem?_map]
  rw [List.getElem?_range (by rw [macdLineOf_length prices h]; omega)]
  simp only [Option.map_some']
  have hsig : (signalLineOf prices).getD 0 none = none := by
    rw [List.getD_eq_getElem?_getD, ← List.head?_eq_getElem?, signalLineOf_head_none prices h]
    rfl
  rw [hsig]
  have : ∀ a : Option ℚ, optSub a none = none := by intro a; cases a <;> rfl
  rw [this]

theorem macd_histogram_zero (data : List Bar) (h : 50 ≤ data.length) :
    (calculateMACD data).histogram = 0 := by
  unfold calculateMACD
  dsimp only
  unfold jsHeadOr0
  rw [histogramOf_head_none (data.map Bar.close) (by rw [List.length_map]; exact h)]

end Lemmas7

section Lemmas8

open PatternRecognitionService

theorem idxSum_succ (k : ℕ) : idxSum (k + 1) = idxSum k + k := by
  unfold idxSum
  rw [List.range_succ]
  simp

theorem idxWeightedSum_replicate (p : ℚ) (k : ℕ) : ∀ j : ℕ,
    idxWeightedSum j (List.replicate k p) = p * ((k : ℚ) * j + idxSum k) := by
  induction k with
  | zero =>
    intro j
    unfold idxWeightedSum idxSum
    simp
  | succ k ih =>
    intro j
    rw [List.replicate_succ]
    unfold idxWeightedSum
    rw [ih (j + 1), idxSum_succ]
    push_cast
    ring

theorem sum_replicate_rat (k : ℕ) (p : ℚ) : (List.replicate k p).sum = (k : ℚ) * p := by
  rw [List.sum_replicate, nsmul_eq_mul]

theorem calculateTrendlineSlope_replicate (k : ℕ) (p : ℚ) :
    calculateTrendlineSlope (List.replicate k p) = 0 := by
  unfold calculateTrendlineSlope
  dsimp only
  rw [List.length_replicate, sum_replicate_rat, idxWeightedSum_replicate p k 0]
  have : ((k : ℚ) * (p * ((k : ℚ) * (0 : ℕ) + idxSum k)) - idxSum k * ((k : ℚ) * p)) = 0 := by
    push_cast
    ring
  rw [this, zero_div]

theorem calculateTrendline_replicate_slope (k : ℕ) (p : ℚ) :
    (calculateTrendline (List.replicate k p)).slope = 0 := by
  unfold calculateTrendline
  dsimp only
  rw [List.length_replicate, sum_replicate_rat, idxWeightedSum_replicate p k 0]
  have : ((k : ℚ) * (p * ((k : ℚ) * (0 : ℕ) + idxSum k)) - idxSum k * ((k : ℚ) * p)) = 0 := by
    push_cast
    ring
  rw [this, zero_div]

theorem calculateTrendline_replicate_intercept (k : ℕ) (p : ℚ) (hk : k ≠ 0) :
    (calculateTrendline (List.replicate k p)).intercept = p := by
  unfold calculateTrendline
  dsimp only
  rw [List.length_replicate, sum_replicate_rat, idxWeightedSum_replicate p k 0]
  have hz : ((k : ℚ) * (p * ((k : ℚ) * (0 : ℕ) + idxSum k)) - idxSum k * ((k : ℚ) * p)) = 0 := by
    push_cast
    ring
  rw [hz, zero_div, zero_mul, sub_zero]
  exact mul_div_cancel_left₀ p (by exact_mod_cast hk)

theorem consecutiveReturns_replicate_zero (k : ℕ) (p : ℚ) :
    ∀ r ∈ consecutiveReturns (List.replicate k p), r = 0 := by
  intro r hr
  unfold consecutiveReturns at hr
  rcases List.mem_map.mp hr with ⟨ab, hab, rfl⟩
  have h1 : ab.1 = p := List.eq_of_mem_replicate (List.of_mem_zip hab).1
  have h2 : ab.2 = p :=
    List.eq_of_mem_replicate (List.mem_of_mem_drop (List.of_mem_zip hab).2)
  rw [h1, h2, sub_self, zero_div]

theorem consecutiveReturns_replicate_sum (k : ℕ) (p : ℚ) :
    (consecutiveReturns (List.replicate k p)).sum = 0 :=
  List.sum_eq_zero (consecutiveReturns_replicate_zero k p)

end Lemmas8


section Lemmas9

open PatternRecognitionService

theorem flatSeries_length (p : ℚ) (vols : List ℚ) :
    (flatSeries p vols).length = vols.length := by
  unfold flatSeries
  rw [List.length_map]

theorem flatSeries_map_close (p : ℚ) (vols : List ℚ) :
    (flatSeries p vols).map Bar.close = List.replicate vols.length p := by
  unfold flatSeries flatBar
  rw [List.map_map]
  induction vols with
  | nil => rfl
  | cons v vs ih =>
    simp only [List.map_cons, List.length_cons, List.replicate_succ]
    rw [← ih]
    rfl

theorem flatSeries_map_high (p : ℚ) (vols : List ℚ) :
    (flatSeries p vols).map Bar.high = List.replicate vols.length p := by
  unfold flatSeries flatBar
  rw [List.map_map]
  induction vols with
  | nil => rfl
  | cons v vs ih =>
    simp only [List.map_cons, List.length_cons, List.replicate_succ]
    rw [← ih]
    rfl

theorem flatSeries_map_low (p : ℚ) (vols : List ℚ) :
    (flatSeries p vols).map Bar.low = List.replicate vols.length p := by
  unfold flatSeries flatBar
  rw [List.map_map]
  induction vols with
  | nil => rfl
  | cons v vs ih =>
    simp only [List.map_cons, List.length_cons, List.replicate_succ]
    rw [← ih]
    rfl

theorem flatSeries_take_map_close (p : ℚ) (vols : List ℚ) (m : ℕ) :
    ((flatSeries p vols).take m).map Bar.close = List.replicate (min m vols.length) p := by
  rw [List.map_take, flatSeries_map_close, List.take_replicate]

theorem flatSeries_take_map_high (p : ℚ) (vols : List ℚ) (m : ℕ) :
    ((flatSeries p vols).take m).map Bar.high = List.replicate (min m vols.length) p := by
  rw [List.map_take, flatSeries_map_high, List.take_replicate]

theorem flatSeries_take_map_low (p : ℚ) (vols : List ℚ) (m : ℕ) :
    ((flatSeries p vols).take m).map Bar.low = List.replicate (min m vols.length) p := by
  rw [List.map_take, flatSeries_map_low, List.take_replicate]

end Lemmas9

section Lemmas10

open PatternRecognitionService

theorem getLastD_mem {α : Type} (l : List α) (d : α) (h : l ≠ []) :
    l.getLastD d ∈ l := by
  rw [List.getLastD_eq_getLast?, List.getLast?_eq_getLast l h]
  exact List.getLast_mem h

theorem foldl_add_eq_sum (l : List ℚ) : ∀ acc : ℚ, l.foldl (· + ·) acc = acc + l.sum := by
  induction l with
  | nil => intro acc; simp
  | cons x xs ih =>
    intro acc
    simp only [List.foldl_cons, List.sum_cons]
    rw [ih (acc + x)]
    ring

theorem bbSMA_replicate (k : ℕ) (p : ℚ) (hk : k ≠ 0) :
    BollingerBands.calculateSMA (List.replicate k p) = p := by
  unfold BollingerBands.calculateSMA
  rw [foldl_add_eq_sum, sum_replicate_rat, List.length_replicate, zero_add]
  exact mul_div_cancel_left₀ p (by exact_mod_cast hk)

theorem bbStdDev_replicate (rsqrt : ℚ → ℚ) (k : ℕ) (p : ℚ) (h0 : rsqrt 0 = 0) :
    BollingerBands.calculateStandardDeviation rsqrt (List.replicate k p) p = 0 := by
  unfold BollingerBands.calculateStandardDeviation
  rw [List.map_replicate, sub_self]
  have : ((0 : ℚ) ^ 2) = 0 := by norm_num
  rw [this, foldl_add_eq_sum, sum_replicate_rat, List.length_replicate]
  simp [h0]

theorem identifyUptrend_flat (p : ℚ) (vols : List ℚ) (m : ℕ) :
    (identifyUptrend ((flatSeries p vols).take m)).isValid = false := by
  unfold identifyUptrend
  dsimp only
  rw [flatSeries_take_map_close, calculateTrendlineSlope_replicate]
  simp

theorem identifyDowntrend_flat (p : ℚ) (vols : List ℚ) (m : ℕ) :
    (identifyDowntrend ((flatSeries p vols).take m)).isValid = false := by
  unfold identifyDowntrend
  dsimp only
  rw [flatSeries_take_map_close, calculateTrendlineSlope_replicate]
  simp

theorem identifyStrongMove_flat (p : ℚ) (vols : List ℚ) (m : ℕ) :
    (identifyStrongMove ((flatSeries p vols).take m)).isValid = false := by
  unfold identifyStrongMove
  dsimp only
  rw [flatSeries_take_map_close, consecutiveReturns_replicate_sum, abs_zero]
  exact decide_eq_false (by norm_num)

theorem detectBullFlag_flat (p : ℚ) (vols : List ℚ) :
    detectBullFlag (flatSeries p vols) = { detected := false } := by
  unfold detectBullFlag
  dsimp only
  rw [if_pos (identifyUptrend_flat p vols _)]

theorem detectBearFlag_flat (p : ℚ) (vols : List ℚ) :
    detectBearFlag (flatSeries p vols) = { detected := false } := by
  unfold detectBearFlag
  dsimp only
  rw [if_pos (identifyDowntrend_flat p vols _)]

theorem detectPennant_flat (p : ℚ) (vols : List ℚ) :
    detectPennant (flatSeries p vols) = { detected := false } := by
  unfold detectPennant
  dsimp only
  rw [if_pos (identifyStrongMove_flat p vols _)]

theorem determineTriangleType_zero : determineTriangleType 0 0 = some "SYMMETRIC_TRIANGLE" := by
  unfold determineTriangleType
  rw [if_pos (by norm_num)]

theorem detectTriangle_flat (p : ℚ) (vols : List ℚ) (hn : 50 ≤ vols.length) :
    detectTriangle (flatSeries p vols) = { detected := false } := by
  unfold detectTriangle
  dsimp only
  have hm : min maxPatternBars (flatSeries p vols).length ⊓ vols.length ≠ 0 := by
    rw [flatSeries_length]
    unfold maxPatternBars
    omega
  have hu : ((flatSeries p vols).take (min maxPatternBars (flatSeries p vols).length)).map
      Bar.high = List.replicate (min maxPatternBars (flatSeries p vols).length ⊓ vols.length) p :=
    flatSeries_take_map_high p vols _
  have hl : ((flatSeries p vols).take (min maxPatternBars (flatSeries p vols).length)).map
      Bar.low = List.replicate (min maxPatternBars (flatSeries p vols).length ⊓ vols.length) p :=
    flatSeries_take_map_low p vols _
  rw [hu, hl, calculateTrendline_replicate_slope, determineTriangleType_zero]
  simp only []
  unfold findConvergencePoint
  dsimp only
  rw [calculateTrendline_replicate_slope, calculateTrendline_replicate_intercept _ _ hm,
    sub_self, sub_self, div_zero]
  simp

end Lemmas10

section Lemmas11

open PatternRecognitionService

theorem foldl_peaks_nil (prices : List ℚ) (minPeakDistance : ℕ)
    (idxs : List ℕ)
    (h : ∀ i ∈ idxs, ¬(prices.getD i 0 > prices.getD (i - 1) 0 ∧
      prices.getD i 0 > prices.getD (i + 1) 0)) :
    idxs.foldl
      (fun (peaks : List Peak) i =>
        if prices.getD i 0 > prices.getD (i - 1) 0 ∧ prices.getD i 0 > prices.getD (i + 1) 0 then
          if peaks = [] ∨ i - (peaks.getLastD default).index > minPeakDistance then
            peaks ++ [{ index := i, price := prices.getD i 0 }]
          else peaks
        else peaks)
      [] = [] := by
  induction idxs with
  | nil => rfl
  | cons i is ih =>
    simp only [List.foldl_cons]
    rw [if_neg (h i (List.mem_cons_self i is))]
    exact ih (fun j hj => h j (List.mem_cons_of_mem i hj))

theorem findSignificantPeaks_flat (data : List Bar) (p : ℚ)
    (h : data.map Bar.high = List.replicate data.length p) :
    findSignificantPeaks data = [] := by
  unfold findSignificantPeaks
  dsimp only
  rw [h]
  apply foldl_peaks_nil
  intro i hi
  rcases List.mem_range'_1.mp hi with ⟨h1, h2⟩
  rw [List.length_replicate] at h2
  intro hc
  have hiv : (List.replicate data.length p).getD i 0 = p := by
    rw [List.getD_eq_getElem?_getD, List.getElem?_replicate_of_lt (by omega)]
    rfl
  have him : (List.replicate data.length p).getD (i - 1) 0 = p := by
    rw [List.getD_eq_getElem?_getD, List.getElem?_replicate_of_lt (by omega)]
    rfl
  rw [hiv, him] at hc
  exact lt_irrefl p hc.1

theorem detectHeadAndShoulders_flat (p : ℚ) (vols : List ℚ) :
    detectHeadAndShoulders (flatSeries p vols) = { detected := false } := by
  unfold detectHeadAndShoulders
  dsimp only
  have hp : findSignificantPeaks
      ((flatSeries p vols).take (min maxPatternBars (flatSeries p vols).length)) = [] := by
    apply findSignificantPeaks_flat _ p
    rw [flatSeries_take_map_high, List.length_take, flatSeries_length]
  rw [if_pos (by rw [hp]; norm_num)]

end Lemmas11

section Lemmas12

open PatternRecognitionService

theorem detectorResults_flat (p : ℚ) (vols : List ℚ) (hn : 50 ≤ vols.length) :
    detectorResults (flatSeries p vols) =
      [("bullFlag", { detected := false }), ("bearFlag", { detected := false }),
       ("pennant", { detected := false }), ("triangle", { detected := false }),
       ("headAndShoulders", { detected := false })] := by
  unfold detectorResults
  rw [detectBullFlag_flat, detectBearFlag_flat, detectPennant_flat,
    detectTriangle_flat p vols hn, detectHeadAndShoulders_flat]

theorem analyzePatterns_flat (p : ℚ) (vols : List ℚ) (hn : 50 ≤ vols.length) :
    analyzePatterns (flatSeries p vols) =
      { patterns := [], summary := { detected := false } } := by
  unfold analyzePatterns
  rw [if_neg (by rw [flatSeries_length]; unfold minPatternBars; omega)]
  unfold generatePatternSummary enrichedResults
  rw [detectorResults_flat p vols hn]
  rfl

end Lemmas12

section Lemmas13

open TechnicalAnalysis

theorem bollinger_flat_invariant (rsqrt : ℚ → ℚ) (h0 : rsqrt 0 = 0) (p : ℚ)
    (vols : List ℚ) (hn : 20 ≤ vols.length) :
    ∀ b ∈ BollingerBands.calculate rsqrt (flatSeries p vols) 20 2,
      b.upper = p ∧ b.lower = p := by
  unfold BollingerBands.calculate
  dsimp only
  rw [flatSeries_map_close]
  have main : ∀ (idxs : List ℕ), (∀ j ∈ idxs, j + 20 ≤ vols.length) →
      ∀ (bands0 : List BollingerBands.Band), (∀ b ∈ bands0, b.upper = p ∧ b.lower = p) →
      ∀ b ∈ idxs.foldl
        (fun bands j =>
          let slice := ((List.replicate vols.length p).drop j).take 20
          let sma := BollingerBands.calculateSMA slice
          let stdDev := BollingerBands.calculateStandardDeviation rsqrt slice sma
          let bandwidth := 2 * stdDev * 2 / sma * 100
          let recentBandwidths := (takeLast bands 20).map BollingerBands.Band.bandwidth
          let averageBandwidth :=
            if recentBandwidths.length > 0 then BollingerBands.calculateSMA recentBandwidths
            else bandwidth
          bands ++ [{ middle := sma
                      upper := sma + 2 * stdDev
                      lower := sma - 2 * stdDev
                      bandwidth := bandwidth
                      squeeze :=
                        { isSqueezing := decide (bandwidth < averageBandwidth * 0.5)
                          bandwidthPercentile := bandwidth / averageBandwidth * 100
                          averageBandwidth := averageBandwidth
                          currentBandwidth := bandwidth } }]) bands0,
        b.upper = p ∧ b.lower = p := by
    intro idxs
    induction idxs with
    | nil => intro _ bands0 h0b b hb; exact h0b b hb
    | cons j js ih =>
      intro hj bands0 h0b b hb
      simp only [List.foldl_cons] at hb
      refine ih (fun i hi => hj i (List.mem_cons_of_mem j hi)) _ ?_ b hb
      intro b2 hb2
      rcases List.mem_append.mp hb2 with hmem | hmem
      · exact h0b b2 hmem
      · rcases List.mem_singleton.mp hmem with rfl
        have hslice : ((List.replicate vols.length p).drop j).take 20 =
            List.replicate 20 p := by
          rw [List.drop_replicate, List.take_replicate]
          congr 1
          have := hj j (List.mem_cons_self j js)
          omega
        rw [hslice]
        have hsma : BollingerBands.calculateSMA (List.replicate 20 p) = p :=
          bbSMA_replicate 20 p (by norm_num)
        constructor
        · simp only [hsma, bbStdDev_replicate rsqrt 20 p h0]
          ring
        · simp only [hsma, bbStdDev_replicate rsqrt 20 p h0]
          ring
  intro b hb
  refine main _ ?_ [] (by intro b2 hb2; cases hb2) b hb
  intro j hj
  rw [List.mem_range] at hj
  rw [List.length_replicate] at hj
  omega

theorem foldl_append_singleton_length {α β : Type} (g : List α → β → α) (idxs : List β) :
    ∀ acc : List α,
      (idxs.foldl (fun bands j => bands ++ [g bands j]) acc).length =
        acc.length + idxs.length := by
  induction idxs with
  | nil => intro acc; simp
  | cons j js ih =>
    intro acc
    simp only [List.foldl_cons]
    rw [ih (acc ++ [g acc j])]
    simp
    omega

theorem bollinger_calculate_length (rsqrt : ℚ → ℚ) (data : List Bar)
    (period : ℕ) (multiplier : ℚ) :
    (BollingerBands.calculate rsqrt data period multiplier).length =
      (data.map Bar.close).length + 1 - period := by
  unfold BollingerBands.calculate
  dsimp only
  rw [foldl_append_singleton_length]
  simp

theorem calculateBollingerBands_flat (rsqrt : ℚ → ℚ) (h0 : rsqrt 0 = 0) (p : ℚ)
    (vols : List ℚ) (hn : 50 ≤ vols.length) :
    (calculateBollingerBands rsqrt (flatSeries p vols)).upper = p ∧
      (calculateBollingerBands rsqrt (flatSeries p vols)).lower = p := by
  unfold calculateBollingerBands
  dsimp only
  have hne : BollingerBands.calculate rsqrt (flatSeries p vols) bbPeriod bbStdDev ≠ [] := by
    intro hc
    have := bollinger_calculate_length rsqrt (flatSeries p vols) bbPeriod bbStdDev
    rw [hc] at this
    rw [List.length_map, flatSeries_length] at this
    unfold bbPeriod at this
    simp at this
    omega
  have hmem := getLastD_mem _ default hne
  exact bollinger_flat_invariant rsqrt h0 p vols (by omega) _ hmem

end Lemmas13

section Lemmas14

open TechnicalAnalysis

theorem foldl_max_replicate (p : ℚ) : ∀ k : ℕ, (List.replicate k p).foldl max p = p := by
  intro k
  induction k with
  | zero => rfl
  | succ k ih =>
    rw [List.replicate_succ, List.foldl_cons, max_self]
    exact ih

theorem foldl_min_replicate (p : ℚ) : ∀ k : ℕ, (List.replicate k p).foldl min p = p := by
  intro k
  induction k with
  | zero => rfl
  | succ k ih =>
    rw [List.replicate_succ, List.foldl_cons, min_self]
    exact ih

theorem listMax_replicate (k : ℕ) (p : ℚ) (hk : k ≠ 0) :
    listMax (List.replicate k p) = p := by
  unfold listMax
  rcases Nat.exists_eq_succ_of_ne_zero hk with ⟨m, rfl⟩
  rw [List.replicate_succ]
  simp only [List.headD_eq_head?_getD, List.head?_cons, Option.getD_some]
  rw [← List.replicate_succ]
  exact foldl_max_replicate p (m + 1)

theorem listMin_replicate (k : ℕ) (p : ℚ) (hk : k ≠ 0) :
    listMin (List.replicate k p) = p := by
  unfold listMin
  rcases Nat.exists_eq_succ_of_ne_zero hk with ⟨m, rfl⟩
  rw [List.replicate_succ]
  simp only [List.headD_eq_head?_getD, List.head?_cons, Option.getD_some]
  rw [← List.replicate_succ]
  exact foldl_min_replicate p (m + 1)

theorem flatSeries_head_close (p : ℚ) (vols : List ℚ) (hn : vols ≠ []) :
    ((flatSeries p vols).map Bar.close).headD 0 = p := by
  rw [flatSeries_map_close]
  rcases Nat.exists_eq_succ_of_ne_zero (fun hc => hn (List.length_eq_zero.mp hc)) with ⟨m, hm⟩
  rw [hm, List.replicate_succ]
  rfl

theorem fibLevels_flat (p : ℚ) (vols : List ℚ) (hn : vols ≠ []) :
    (calculateFibonacciLevels (flatSeries p vols)).levels =
      fibLevels.map (fun level => (level, p)) := by
  unfold calculateFibonacciLevels
  dsimp only
  have hlen : vols.length ≠ 0 := fun hc => hn (List.length_eq_zero.mp hc)
  rw [flatSeries_map_high, flatSeries_map_low, listMax_replicate _ _ hlen,
    listMin_replicate _ _ hlen]
  simp only [sub_self, zero_mul, sub_zero]

end Lemmas14

section Lemmas15

open TechnicalAnalysis

theorem breakout_direction_flat (rsqrt : ℚ → ℚ) (h0 : rsqrt 0 = 0) (p : ℚ)
    (vols : List ℚ) (hn : 50 ≤ vols.length) :
    (analyzeBreakout (flatSeries p vols)
      (assembleBreakoutIndicators rsqrt (flatSeries p vols))).direction = "NEUTRAL" := by
  have hne : vols ≠ [] := by
    intro hc
    rw [hc] at hn
    simp at hn
  have hup : (assembleBreakoutIndicators rsqrt (flatSeries p vols)).bbUpper = p :=
    (calculateBollingerBands_flat rsqrt h0 p vols hn).1
  have hlo : (assembleBreakoutIndicators rsqrt (flatSeries p vols)).bbLower = p :=
    (calculateBollingerBands_flat rsqrt h0 p vols hn).2
  have hhist : (assembleBreakoutIndicators rsqrt (flatSeries p vols)).macdHistogram = 0 :=
    macd_histogram_zero (flatSeries p vols) (by rw [flatSeries_length]; exact hn)
  have hlev : (assembleBreakoutIndicators rsqrt (flatSeries p vols)).fibLevels =
      fibLevels.map (fun level => (level, p)) :=
    fibLevels_flat p vols hne
  have hfound : (assembleBreakoutIndicators rsqrt (flatSeries p vols)).patternsFound = false :=
    rfl
  have hc : ((flatSeries p vols).map Bar.close).headD 0 = p :=
    flatSeries_head_close p vols hne
  have htech : technicalValue (bbSignalOf (((flatSeries p vols).map Bar.close).headD 0)
      (assembleBreakoutIndicators rsqrt (flatSeries p vols)).bbUpper
      (assembleBreakoutIndicators rsqrt (flatSeries p vols)).bbLower) = 0 := by
    rw [hc, hup, hlo]
    unfold bbSignalOf
    rw [if_neg (lt_irrefl p), if_neg (lt_irrefl p)]
    rfl
  have hmom : momentumValue (macdSignalOf
      (assembleBreakoutIndicators rsqrt (flatSeries p vols)).macdHistogram) = 0 := by
    rw [hhist]
    unfold macdSignalOf
    rw [if_neg (lt_irrefl 0), if_neg (lt_irrefl 0)]
    rfl
  have hpat : patternValue (patternSignalOf
      (assembleBreakoutIndicators rsqrt (flatSeries p vols)).patternsFound
      (assembleBreakoutIndicators rsqrt (flatSeries p vols)).dominantType
      (assembleBreakoutIndicators rsqrt (flatSeries p vols)).maTrend) = 0 := by
    rw [hfound]
    rfl
  have hfib : fibonacciValue (fibonacciSignalOf (((flatSeries p vols).map Bar.close).headD 0)
      (assembleBreakoutIndicators rsqrt (flatSeries p vols)).fibLevels) = -1 := by
    rw [hc, hlev]
    unfold fibonacciSignalOf
    rw [if_pos (findNearestFibonacciLevel_const p fibLevels (by unfold fibLevels; simp))]
    rfl
  obtain ⟨hv0, hv1⟩ := volumeValue_bounds (volumeSignalOf
    (assembleBreakoutIndicators rsqrt (flatSeries p vols)).volRatio20Day)
  have hws1 : ¬(breakoutWeightedSum (((flatSeries p vols).map Bar.close).headD 0)
      (assembleBreakoutIndicators rsqrt (flatSeries p vols)) > 0.2) := by
    unfold breakoutWeightedSum weightTechnical weightMomentum weightVolume weightPattern
      weightFibonacci
    rw [htech, hmom, hpat, hfib]
    intro hgt
    nlinarith
  have hws2 : ¬(breakoutWeightedSum (((flatSeries p vols).map Bar.close).headD 0)
      (assembleBreakoutIndicators rsqrt (flatSeries p vols)) < -0.2) := by
    unfold breakoutWeightedSum weightTechnical weightMomentum weightVolume weightPattern
      weightFibonacci
    rw [htech, hmom, hpat, hfib]
    intro hlt
    nlinarith
  unfold analyzeBreakout
  dsimp only
  rw [if_neg hws1, if_neg hws2]

end Lemmas15

/-- Claim C5: for every series of at least 50 bars in which every bar has
identical open, high, low and close (a flat, constant-price series, volumes
arbitrary), the analysis returns normally (no throw — the guard is passed and
the body is total), the fused breakout direction is `NEUTRAL`, the trendline
slopes fitted to the (constant) close, high and low series are all 0, and no
chart pattern is reported detected (empty pattern list,
`summary.detected = false`).  `rsqrt 0 = 0` is the `Math.sqrt 0 = 0` fact
needed for the zero-variance Bollinger window. -/
theorem claim_C5 (rsqrt : ℚ → ℚ) (h0 : rsqrt 0 = 0) (p : ℚ) (vols : List ℚ)
    (hn : 50 ≤ vols.length) :
    TechnicalAnalysis.analyze rsqrt (flatSeries p vols) =
      TechnicalAnalysis.AnalyzeOutcome.ok
        (TechnicalAnalysis.analyzeBody rsqrt (flatSeries p vols)) ∧
    (TechnicalAnalysis.analyzeBody rsqrt (flatSeries p vols)).breakout.direction = "NEUTRAL" ∧
    PatternRecognitionService.calculateTrendlineSlope
      (((flatSeries p vols).take (min PatternRecognitionService.maxPatternBars
        (flatSeries p vols).length)).map Bar.close) = 0 ∧
    (PatternRecognitionService.calculateTrendline
      (((flatSeries p vols).take (min PatternRecognitionService.maxPatternBars
        (flatSeries p vols).length)).map Bar.high)).slope = 0 ∧
    (PatternRecognitionService.calculateTrendline
      (((flatSeries p vols).take (min PatternRecognitionService.maxPatternBars
        (flatSeries p vols).length)).map Bar.low)).slope = 0 ∧
    (TechnicalAnalysis.analyzeBody rsqrt (flatSeries p vols)).patterns.summary.detected =
      false ∧
    (TechnicalAnalysis.analyzeBody rsqrt (flatSeries p vols)).patterns.patterns = [] := by
  have hpat : (TechnicalAnalysis.analyzeBody rsqrt (flatSeries p vols)).patterns =
      { patterns := [], summary := { detected := false } } := by
    show PatternRecognitionService.analyzePatterns (flatSeries p vols) = _
    exact analyzePatterns_flat p vols hn
  refine ⟨?_, ?_, ?_, ?_, ?_, ?_, ?_⟩
  · unfold TechnicalAnalysis.analyze
    rw [if_neg (by rw [flatSeries_length]; omega)]
  · exact breakout_direction_flat rsqrt h0 p vols hn
  · rw [flatSeries_take_map_close]
    exact calculateTrendlineSlope_replicate _ p
  · rw [flatSeries_take_map_high]
    exact calculateTrendline_replicate_slope _ p
  · rw [flatSeries_take_map_low]
    exact calculateTrendline_replicate_slope _ p
  · rw [hpat]
  · rw [hpat]

/-- Claim C5, witness. -/
theorem claim_C5_witness :
    ((fun _ : ℚ => (0 : ℚ)) 0 = 0) ∧ 50 ≤ (List.replicate 50 (3 : ℚ)).length ∧
      ((TechnicalAnalysis.analyze (fun _ : ℚ => (0 : ℚ))
          (flatSeries 7 (List.replicate 50 (3 : ℚ))) =
        TechnicalAnalysis.AnalyzeOutcome.ok (TechnicalAnalysis.analyzeBody
          (fun _ : ℚ => (0 : ℚ)) (flatSeries 7 (List.replicate 50 (3 : ℚ))))) ∧
      (TechnicalAnalysis.analyzeBody (fun _ : ℚ => (0 : ℚ))
        (flatSeries 7 (List.replicate 50 (3 : ℚ)))).breakout.direction = "NEUTRAL" ∧
      (TechnicalAnalysis.analyzeBody (fun _ : ℚ => (0 : ℚ))
        (flatSeries 7 (List.replicate 50 (3 : ℚ)))).patterns.summary.detected = false) :=
  ⟨rfl, by decide,
    have h := claim_C5 (fun _ : ℚ => (0 : ℚ)) rfl 7 (List.replicate 50 (3 : ℚ)) (by decide)
    ⟨h.1, h.2.1, h.2.2.2.2.2.1⟩⟩
